import Mathlib

/-!
# Option resolution of `ariba` and `extract_read-through_fusions`

A shallow embedding of `source/options_ariba.cpp` and
`source/options_extract_read-through_fusions.cpp`, and theorems about it.

The two files define the same three functions (`get_default_options`,
`print_usage`, `parse_arguments`), so each tool has a namespace of its own:
`ariba` and `extract_read_through_fusions`.

What the source takes from elsewhere is made explicit:

* the C library (`getopt`, `access`, `atof`, `atoi`) and the headers that are not
  part of the two files (`FILTERS`, `DEFAULT_GTF_FEATURES`, `parse_gtf_features`,
  `output_directory_exists`) are fields of a `Platform` record;
* `exit(1)` is the `Except.error` side of the result, carrying what was written to
  `cerr` by the terminating call;
* `std::istringstream` and `getopt` are modelled below from their documented
  behaviour.
-/

set_option autoImplicit false

/-! ## Values of type `float`/`double` -/

/-- What `atof` can hand back: not-a-number, the two infinities, or a finite value
(taken exactly). -/
inductive FVal where
  | nan
  | ninf
  | pinf
  | fin (q : ℚ)
  deriving DecidableEq, Repr

namespace FVal

/-- The comparison `v < 0` of the source; false for NaN. -/
def lt_zero : FVal → Bool
  | nan => false
  | ninf => true
  | pinf => false
  | fin q => decide (q < 0)

/-- The comparison `v > 1` of the source; false for NaN. -/
def gt_one : FVal → Bool
  | nan => false
  | ninf => false
  | pinf => true
  | fin q => decide (1 < q)

/-- The mathematical statement `v < 0 or v > 1`, for a value on the extended real line;
it holds of no NaN. -/
def outside_unit_interval : FVal → Prop
  | fin q => q < 0 ∨ 1 < q
  | ninf => True
  | pinf => True
  | nan => False

/-- The mathematical statement `0 <= v <= 1`. -/
def in_unit_interval : FVal → Prop
  | fin q => 0 ≤ q ∧ q ≤ 1
  | _ => False

end FVal

/-! ## The filter map (`options.filters`) -/

/-- Modelled from the spec: the container type of `options.filters` (declared in
`options_ariba.hpp`, which is not among the sources). The map from filter name to
enabled-flag is the list of its entries in iteration order, which is insertion order
(spec, Filter Registry: "Order is insertion order and must be preserved"); every key
occurs once. -/
abbrev filters_t := List (String × Bool)

namespace filters_t

/-- The keys of the map. -/
def keys (m : filters_t) : List String := m.map Prod.fst

/-- Lookup `m.find(k)`: `none` stands for `m.end()`. -/
def find (m : filters_t) (k : String) : Option Bool := List.lookup k m

/-- Assignment `m[k] = v`: overwrites the entry of `k`, or inserts one. -/
def assign : filters_t → String → Bool → filters_t
  | [], k, v => [(k, v)]
  | (k', v') :: m, k, v => if k' = k then (k', v) :: m else (k', v') :: assign m k v

/-- Reading `m[k]`: the value of `k`, and the map afterwards, since `operator[]`
inserts a value-initialised (`false`) entry for a key that is missing. -/
def index (m : filters_t) (k : String) : Bool × filters_t :=
  match m.find k with
  | some v => (v, m)
  | none => (false, m.assign k false)

end filters_t

/-! ## `std::istringstream` -/

/-- The classic-locale `isspace`. -/
def isspace (c : Char) : Bool :=
  c = ' ' || c = '\t' || c = '\n' || c = '\x0b' || c = '\x0c' || c = '\r'

/-- An input string stream: the characters not read yet and the two state bits the
source depends on. -/
structure istringstream where
  buf : List Char
  eofbit : Bool
  failbit : Bool
  deriving DecidableEq, Repr

namespace istringstream

/-- A default-constructed stream. -/
def init : istringstream := ⟨[], false, false⟩

/-- The call `ss.str(s)`: replaces the buffer; the state bits are left as they are. -/
def str (ss : istringstream) (s : String) : istringstream := { ss with buf := s.data }

/-- The test `while (ss)`, i.e. `!ss.fail()`. -/
def good (ss : istringstream) : Bool := !ss.failbit

/-- The extraction `ss >> word` into a fresh (empty) string. A stream that is not
good sets `failbit` and extracts nothing; otherwise leading whitespace is
skipped, reaching the end there sets `eofbit` and `failbit`, and else the
characters up to the next whitespace are taken, with `eofbit` set when the end of the
buffer stopped the extraction. -/
def extract (ss : istringstream) : String × istringstream :=
  if ss.eofbit || ss.failbit then ("", { ss with failbit := true })
  else
    let b := ss.buf.dropWhile isspace
    if b = [] then ("", ⟨[], true, true⟩)
    else
      let rest := b.dropWhile (fun c => !isspace c)
      (String.mk (b.takeWhile (fun c => !isspace c)), ⟨rest, decide (rest = []), false⟩)

end istringstream

/-! ## `getopt` -/

/-- What one call of `getopt` reports. -/
inductive getopt_result where
  /-- The call returns the option character `c`; `optarg` is its argument (empty for an
  option that takes none). -/
  | option (c : Char) (optarg : String)
  /-- The call returns `'?'` and has set `optopt`: an unknown option character or an
  option whose argument is missing. -/
  | error (optopt : Char)
  deriving DecidableEq, Repr

/-- Looks `c` up in the option string: `none` when `c` is no option character,
`some true` when it is followed by a colon (takes an argument), `some false`
otherwise. -/
def optstring_find : List Char → Char → Option Bool
  | [], _ => none
  | d :: rest, c => if d = c then some (rest.head? = some ':') else optstring_find rest c

/-- The lookup of `getopt`: the characters `':'` and `';'` are never options. -/
def option_kind (optstring : List Char) (c : Char) : Option Bool :=
  if c = ':' || c = ';' then none else optstring_find optstring c

/-- The calls of `getopt` that read one argv element `-abc…`, given its characters
after the dash and the argv element that follows (if any). The second component
says whether that following element was consumed as an option argument. -/
def getopt_element (optstring : List Char) : List Char → Option String → List getopt_result × Bool
  | [], _ => ([], false)
  | c :: cs, next =>
    match option_kind optstring c with
    | none => ((getopt_result.error c) :: (getopt_element optstring cs next).1,
               (getopt_element optstring cs next).2)
    | some false => ((getopt_result.option c "") :: (getopt_element optstring cs next).1,
               (getopt_element optstring cs next).2)
    | some true =>
      match cs, next with
      | _ :: _, _ => ([getopt_result.option c (String.mk cs)], false)
      | [], some a => ([getopt_result.option c a], true)
      | [], none => ([getopt_result.error c], false)

/-- The test `NONOPTION` of `getopt`: the element does not start with a dash, or is
just a dash. -/
def nonoption (a : String) : Bool :=
  match a.data with
  | '-' :: _ :: _ => false
  | _ => true

/-- The results of the successive calls of `getopt` on the argv elements from `optind`
on, until it returns `-1`. `taken` says that the first of these elements has already
been consumed as the argument of the option before it (then `optind` is one further).
`--` ends the options. An element that is no option ends them too when
`posixly_correct` (the environment variable `POSIXLY_CORRECT`) is set, and is skipped
otherwise. -/
def getopt_from (posixly_correct : Bool) (optstring : List Char) :
    Bool → List String → List getopt_result
  | _, [] => []
  | true, _ :: rest => getopt_from posixly_correct optstring false rest
  | false, a :: rest =>
    if a = "--" then []
    else if nonoption a then
      (if posixly_correct then [] else getopt_from posixly_correct optstring false rest)
    else
      (getopt_element optstring (a.data.drop 1) rest.head?).1 ++
        getopt_from posixly_correct optstring
          (getopt_element optstring (a.data.drop 1) rest.head?).2 rest

/-- The results of the successive calls `getopt(argc, argv, optstring)` until it returns
`-1`: scanning starts after `argv[0]`. -/
def getopt_calls (posixly_correct : Bool) (optstring : List Char) (argv : List String) :
    List getopt_result :=
  getopt_from posixly_correct optstring false (argv.drop 1)

/-! ## What the two files take from their environment -/

/-- The C library calls and the declarations of other files that the two sources
use. -/
structure Platform where
  /-- The keys of the global `FILTERS`, in its iteration order. -/
  FILTERS : List String
  /-- Whether `POSIXLY_CORRECT` is set in the environment (read by `getopt`). -/
  posixly_correct : Bool
  /-- The value of the global `optopt` after a call of `getopt` that returned an option
  and reported no error (glibc leaves 0 there, other C libraries the option
  character). -/
  optopt_after_option : Char
  /-- The test `access(path, R_OK) == 0`. -/
  access : String → Bool
  /-- The value of `atof(s)`, converted to the type of the field it is stored in. -/
  atof : String → FVal
  /-- The value of `atoi(s)`, converted to the type of the field it is stored in. -/
  atoi : String → Int
  /-- The constant `DEFAULT_GTF_FEATURES`. -/
  DEFAULT_GTF_FEATURES : String
  /-- Whether `parse_gtf_features(s, gtf_features)` accepts `s`. -/
  parse_gtf_features : String → Bool
  /-- The test `output_directory_exists(path)`. -/
  output_directory_exists : String → Bool

deriving instance DecidableEq for Except

/-- How a run ends when it does not return: both ways end in `exit(1)`. -/
inductive Exit where
  /-- The call `print_usage(error_message)`: writes `ERROR: ` and the message when the
  message is not empty, then the help text. -/
  | usage (error_message : String)
  /-- A line written to `cerr` followed by `exit(1)`. -/
  | error (line : String)
  deriving DecidableEq, Repr

/-- The line the sources write for a file that `access` rejects. -/
def file_not_found (path : String) : Exit :=
  Exit.error ("ERROR: File '" ++ path ++ "' not found.")

/-- The call `replace(s.begin(), s.end(), ',', ' ')`. -/
def replace_commas (s : String) : String :=
  String.mk (s.data.map (fun c => if c = ',' then ' ' else c))

namespace ariba

/-- The record `options_t` of the fusion caller, with the fields the source file
uses. Strings start empty. -/
structure options_t where
  chimeric_bam_file : String
  read_through_bam_file : String
  rna_bam_file : String
  gene_annotation_file : String
  exon_annotation_file : String
  output_file : String
  discarded_output_file : String
  assembly_file : String
  known_fusions_file : String
  blacklist_file : String
  interesting_contigs : String
  filters : filters_t
  evalue_cutoff : FVal
  min_support : Int
  max_mismapper_fraction : FVal
  min_anchor_length : Int
  homopolymer_length : Int
  min_read_through_distance : Int
  print_supporting_reads : Bool
  print_supporting_reads_for_discarded_fusions : Bool
  low_tumor_content : Bool
  max_kmer_content : FVal
  deriving DecidableEq, Repr

/-- The function `get_default_options`. -/
def get_default_options (P : Platform) : options_t :=
  { chimeric_bam_file := ""
    read_through_bam_file := ""
    rna_bam_file := ""
    gene_annotation_file := ""
    exon_annotation_file := ""
    output_file := ""
    discarded_output_file := ""
    assembly_file := ""
    known_fusions_file := ""
    blacklist_file := ""
    interesting_contigs := "1 2 3 4 5 6 7 8 9 10 11 12 13 14 15 16 17 18 19 20 21 22 X Y"
    filters := P.FILTERS.foldl (fun m name => m.assign name true) []
    evalue_cutoff := FVal.fin (2 / 5)
    min_support := 2
    max_mismapper_fraction := FVal.fin (1 / 2)
    min_anchor_length := 20
    homopolymer_length := 6
    min_read_through_distance := 10000
    print_supporting_reads := false
    print_supporting_reads_for_discarded_fusions := false
    low_tumor_content := false
    max_kmer_content := FVal.fin (3 / 5) }

/-- The loop of `print_usage` that builds `valid_filters`: the keys of the map in
iteration order, with `", "` before every key but the first (`at_begin` is the test
`i == default_options.filters.begin()`). -/
def valid_filters_loop : filters_t → Bool → String → String
  | [], _, valid_filters => valid_filters
  | (name, _) :: rest, at_begin, valid_filters =>
    valid_filters_loop rest false
      ((if at_begin then valid_filters else valid_filters ++ ", ") ++ name)

/-- The local `valid_filters` of `print_usage`, computed from
`default_options = get_default_options()`. -/
def print_usage_valid_filters (P : Platform) : String :=
  valid_filters_loop (get_default_options P).filters true ""

/-- The description of `-f` that `print_usage` hands to `wrap_help`. -/
def print_usage_f_description (P : Platform) : String :=
  "A comma-/space-separated list of filters to disable. By default "
    ++ "all filters are enabled. Valid values: " ++ print_usage_valid_filters P

/-- The option string handed to `getopt`. -/
def optstring : List Char := "c:r:x:g:e:o:O:a:k:b:i:f:E:s:lm:H:D:A:K:Ih".data

/-- The variables of `parse_arguments` that live across the iterations of the
scanning loop. -/
structure scan_state where
  options : options_t
  disabled_filters_ss : istringstream
  deriving DecidableEq, Repr

/-- The loop `while (disabled_filters_ss) { ... }` of `case 'f'`. Every iteration on a
good stream consumes a character or sets `failbit`; `fuel` bounds the number of
iterations. -/
def disable_filters : Nat → istringstream → filters_t → Except Exit (istringstream × filters_t)
  | 0, ss, filters => Except.ok (ss, filters)
  | fuel + 1, ss, filters =>
    if ss.good then
      if ¬ (ss.extract.1 = "") ∧ filters.find ss.extract.1 = none then
        Except.error (Exit.usage ("Invalid argument to option -f: " ++ ss.extract.1))
      else disable_filters fuel ss.extract.2 (filters.assign ss.extract.1 false)
    else Except.ok (ss, filters)

/-- The body of the `switch (c)` in the scanning loop, for one result of `getopt`. -/
def parse_option (P : Platform) (st : scan_state) : getopt_result → Except Exit scan_state
  | getopt_result.error optopt =>
    if optopt ∈ ['c', 'r', 'x', 'g', 'e', 'o', 'O', 'a', 'k', 'b', 'i', 'f', 'E', 's', 'm',
        'H', 'D', 'A', 'K'] then
      Except.error (Exit.usage ("Option -" ++ String.singleton optopt ++ " requires an argument."))
    else Except.error (Exit.usage ("Unknown option: -" ++ String.singleton optopt))
  | getopt_result.option c optarg =>
    if c = 'c' then
      if P.access optarg then Except.ok { st with options.chimeric_bam_file := optarg }
      else Except.error (file_not_found optarg)
    else if c = 'r' then
      if P.access optarg then Except.ok { st with options.read_through_bam_file := optarg }
      else Except.error (file_not_found optarg)
    else if c = 'x' then
      if P.access optarg then
        if P.access (optarg ++ ".bai") then Except.ok { st with options.rna_bam_file := optarg }
        else Except.error (file_not_found (optarg ++ ".bai"))
      else Except.error (file_not_found optarg)
    else if c = 'g' then
      if P.access optarg then Except.ok { st with options.gene_annotation_file := optarg }
      else Except.error (file_not_found optarg)
    else if c = 'e' then
      if P.access optarg then Except.ok { st with options.exon_annotation_file := optarg }
      else Except.error (file_not_found optarg)
    else if c = 'o' then Except.ok { st with options.output_file := optarg }
    else if c = 'O' then Except.ok { st with options.discarded_output_file := optarg }
    else if c = 'a' then
      if P.access optarg then
        if P.access (optarg ++ ".fai") then Except.ok { st with options.assembly_file := optarg }
        else Except.error (file_not_found (optarg ++ ".fai"))
      else Except.error (file_not_found optarg)
    else if c = 'b' then
      if P.access optarg then Except.ok { st with options.blacklist_file := optarg }
      else Except.error (file_not_found optarg)
    else if c = 'k' then
      if P.access optarg then Except.ok { st with options.known_fusions_file := optarg }
      else Except.error (file_not_found optarg)
    else if c = 'i' then
      Except.ok { st with options.interesting_contigs := replace_commas optarg }
    else if c = 'f' then
      match disable_filters ((replace_commas optarg).data.length + 2)
          (st.disabled_filters_ss.str (replace_commas optarg)) st.options.filters with
      | Except.error e => Except.error e
      | Except.ok (ss, filters) =>
        Except.ok { options := { st.options with filters := filters }, disabled_filters_ss := ss }
    else if c = 'E' then Except.ok { st with options.evalue_cutoff := P.atof optarg }
    else if c = 's' then Except.ok { st with options.min_support := P.atoi optarg }
    else if c = 'l' then Except.ok { st with options.low_tumor_content := true }
    else if c = 'm' then
      if (P.atof optarg).lt_zero || (P.atof optarg).gt_one then
        Except.error (Exit.usage
          ("Argument to -" ++ String.singleton P.optopt_after_option
            ++ " must be between 0 and 1."))
      else Except.ok { st with options.max_mismapper_fraction := P.atof optarg }
    else if c = 'H' then Except.ok { st with options.homopolymer_length := P.atoi optarg }
    else if c = 'D' then Except.ok { st with options.min_read_through_distance := P.atoi optarg }
    else if c = 'A' then Except.ok { st with options.min_anchor_length := P.atoi optarg }
    else if c = 'K' then Except.ok { st with options.max_kmer_content := P.atof optarg }
    else if c = 'I' then
      if ¬ st.options.print_supporting_reads then
        Except.ok { st with options.print_supporting_reads := true }
      else Except.ok { st with options.print_supporting_reads_for_discarded_fusions := true }
    else Except.error (Exit.usage "")

/-- The scanning loop `while ((c = getopt(...)) != -1) switch (c) ...` over the results
of the successive `getopt` calls; it stops at the first one that terminates the
process. -/
def scan (P : Platform) : scan_state → List getopt_result → Except Exit scan_state
  | st, [] => Except.ok st
  | st, r :: rs =>
    match parse_option P st r with
    | Except.error e => Except.error e
    | Except.ok st' => scan P st' rs

/-- What a run of `parse_arguments` does: the lines written to `cerr` before it
returns or terminates (the output of the terminating call apart), and the record it
returns or the way it terminates. -/
structure Run where
  cerr : List String
  result : Except Exit options_t
  deriving DecidableEq, Repr

/-- The line written when `-r` is missing. -/
def missing_r_warning : String :=
  "WARNING: missing option: -r, no read-through fusions will be detected"

/-- The part of `parse_arguments` after the scanning loop (`// check for mandatory
arguments`). -/
def check_mandatory_arguments (options : options_t) : Run :=
  if options.chimeric_bam_file = "" then
    ⟨[], Except.error (Exit.usage "Missing mandatory option: -c")⟩
  else
    let cerr := if options.read_through_bam_file = "" then [missing_r_warning] else []
    if options.rna_bam_file = "" then
      ⟨cerr, Except.error (Exit.usage "Missing mandatory option: -x")⟩
    else if options.gene_annotation_file = "" then
      ⟨cerr, Except.error (Exit.usage "Missing mandatory option: -g")⟩
    else if options.exon_annotation_file = "" then
      ⟨cerr, Except.error (Exit.usage "Missing mandatory option: -e")⟩
    else if options.output_file = "" then
      ⟨cerr, Except.error (Exit.usage "Missing mandatory option: -o")⟩
    else if (options.filters.index "mismappers").1 ∧ options.assembly_file = "" then
      ⟨cerr, Except.error (Exit.usage "Filter 'mismappers' enabled, but missing option: -a")⟩
    else if ((options.filters.index "mismappers").2.index "blacklist").1
        ∧ options.blacklist_file = "" then
      ⟨cerr, Except.error (Exit.usage "Filter 'blacklist' enabled, but missing option: -b")⟩
    else
      ⟨cerr, Except.ok
        { options with filters := ((options.filters.index "mismappers").2.index "blacklist").2 }⟩

/-- The state in which the scanning loop starts. -/
def scan_init (P : Platform) : scan_state :=
  { options := get_default_options P, disabled_filters_ss := istringstream.init }

/-- The function `parse_arguments`. -/
def parse_arguments (P : Platform) (argv : List String) : Run :=
  match scan P (scan_init P) (getopt_calls P.posixly_correct optstring argv) with
  | Except.error e => ⟨[], Except.error e⟩
  | Except.ok st => check_mandatory_arguments st.options

end ariba

namespace extract_read_through_fusions

/-- The record `options_t` of the companion tool, with the fields the source file
uses. -/
structure options_t where
  input_bam_file : String
  output_bam_file : String
  gene_annotation_file : String
  single_end : Bool
  gtf_features : String
  deriving DecidableEq, Repr

/-- The function `get_default_options`. -/
def get_default_options (P : Platform) : options_t :=
  { input_bam_file := "/dev/stdin"
    output_bam_file := "/dev/stdout"
    gene_annotation_file := ""
    single_end := false
    gtf_features := P.DEFAULT_GTF_FEATURES }

/-- The option string handed to `getopt`. -/
def optstring : List Char := "i:o:g:G:1h".data

/-- The body of the `switch (c)` in the scanning loop, for one result of `getopt`. -/
def parse_option (P : Platform) (options : options_t) : getopt_result → Except Exit options_t
  | getopt_result.error optopt =>
    if optopt ∈ ['g', 'i', 'o'] then
      Except.error (Exit.usage ("Option -" ++ String.singleton optopt ++ " requires an argument."))
    else Except.error (Exit.usage ("Unknown option: -" ++ String.singleton optopt))
  | getopt_result.option c optarg =>
    if c = 'i' then
      if P.access optarg then Except.ok { options with input_bam_file := optarg }
      else Except.error (file_not_found optarg)
    else if c = 'o' then
      if P.output_directory_exists optarg then Except.ok { options with output_bam_file := optarg }
      else Except.error (Exit.error
        ("ERROR: Parent directory of output file '" ++ optarg ++ "' does not exist."))
    else if c = 'g' then
      if P.access optarg then Except.ok { options with gene_annotation_file := optarg }
      else Except.error (file_not_found optarg)
    else if c = 'G' then
      if P.parse_gtf_features optarg then Except.ok { options with gtf_features := optarg }
      else Except.error (Exit.error ("ERROR: Malformed GTF features: " ++ optarg))
    else if c = '1' then Except.ok { options with single_end := true }
    else Except.error (Exit.usage "")

/-- The scanning loop over the results of the successive `getopt` calls. -/
def scan (P : Platform) : options_t → List getopt_result → Except Exit options_t
  | options, [] => Except.ok options
  | options, r :: rs =>
    match parse_option P options r with
    | Except.error e => Except.error e
    | Except.ok options' => scan P options' rs

/-- The part of `parse_arguments` after the scanning loop. -/
def check_mandatory_arguments (options : options_t) : Except Exit options_t :=
  if options.input_bam_file = "" then Except.error (Exit.usage "Missing mandatory option: -i")
  else if options.output_bam_file = "" then
    Except.error (Exit.usage "Missing mandatory option: -o")
  else if options.gene_annotation_file = "" then
    Except.error (Exit.usage "Missing mandatory option: -g")
  else Except.ok options

/-- The function `parse_arguments`. -/
def parse_arguments (P : Platform) (argv : List String) : Except Exit options_t :=
  match scan P (get_default_options P) (getopt_calls P.posixly_correct optstring argv) with
  | Except.error e => Except.error e
  | Except.ok options => check_mandatory_arguments options

end extract_read_through_fusions

/-! ## Vocabulary of the statements -/

/-- Whether a `getopt` result is an occurrence of the flag `-c`. -/
def getopt_result.is_flag (c : Char) : getopt_result → Bool
  | getopt_result.option d _ => decide (d = c)
  | getopt_result.error _ => false

/-- The number of occurrences of the flag `-c` among the results of `getopt`. -/
def flag_count (c : Char) (rs : List getopt_result) : Nat := rs.countP (getopt_result.is_flag c)

/-- The words of a buffer: its maximal runs of characters that are not white
space. -/
def words (b : List Char) : List String :=
  ((b.splitOnP isspace).filter (fun w => !w.isEmpty)).map String.mk

/-- The non-empty tokens of a list-valued argument: commas and white space
separate. -/
def tokens (optarg : String) : List String := words (replace_commas optarg).data

/-- Disabling the names of a list one after the other, each looked up in the map as it
is then: a name that is no key terminates with the message of `case 'f'`. -/
def disable_names : List String → filters_t → Except Exit filters_t
  | [], filters => Except.ok filters
  | name :: names, filters =>
    if filters.find name = none then
      Except.error (Exit.usage ("Invalid argument to option -f: " ++ name))
    else disable_names names (filters.assign name false)

/-- The names that the occurrences of `-f` among the results of `getopt` list. -/
def f_names : List getopt_result → List String
  | [] => []
  | getopt_result.option c v :: rs => if c = 'f' then tokens v ++ f_names rs else f_names rs
  | getopt_result.error _ :: rs => f_names rs

/-- The first name of a list that is not a key of the map. -/
def first_unknown (filters : filters_t) (names : List String) : Option String :=
  names.find? (fun name => filters.find name == none)

/-- The messages of all checks that a scanned record fails, in the order `-c`, `-x`, `-g`,
`-e`, `-o`, `mismappers`/`-a`, `blacklist`/`-b`; a filter is enabled when the map has it
with value true. -/
def ariba.failed_checks (o : ariba.options_t) : List String :=
  (if o.chimeric_bam_file = "" then ["Missing mandatory option: -c"] else [])
  ++ (if o.rna_bam_file = "" then ["Missing mandatory option: -x"] else [])
  ++ (if o.gene_annotation_file = "" then ["Missing mandatory option: -g"] else [])
  ++ (if o.exon_annotation_file = "" then ["Missing mandatory option: -e"] else [])
  ++ (if o.output_file = "" then ["Missing mandatory option: -o"] else [])
  ++ (if o.filters.find "mismappers" = some true ∧ o.assembly_file = "" then
        ["Filter 'mismappers' enabled, but missing option: -a"] else [])
  ++ (if o.filters.find "blacklist" = some true ∧ o.blacklist_file = "" then
        ["Filter 'blacklist' enabled, but missing option: -b"] else [])

/-- The digits at the head of a list, read as a decimal number after `acc`. -/
def atoi_digits : List Char → Nat → Nat
  | [], acc => acc
  | c :: cs, acc => if c.isDigit then atoi_digits cs (acc * 10 + (c.toNat - 48)) else acc

/-- The `atoi` of the examples: white space, an optional sign, decimal digits. -/
def atoi_example (s : String) : Int :=
  match s.data.dropWhile isspace with
  | '-' :: r => - (atoi_digits r 0 : Int)
  | '+' :: r => (atoi_digits r 0 : Int)
  | r => (atoi_digits r 0 : Int)

/-- A platform for the examples: three registered filters, every file but the one with
the empty name readable, `optopt` as glibc leaves it, `atof` knows `"2"`, `"-1"` and
`"0.25"`. -/
def example_platform : Platform :=
  { FILTERS := ["mismappers", "blacklist", "min_support"]
    posixly_correct := false
    access := fun path => !(path = "")
    optopt_after_option := Char.ofNat 0
    atof := fun s =>
      if s = "2" then FVal.fin 2 else if s = "-1" then FVal.fin (-1)
      else if s = "0.25" then FVal.fin (1 / 4) else FVal.nan
    atoi := atoi_example
    DEFAULT_GTF_FEATURES := "gene_name=gene_name gene_id=gene_id"
    parse_gtf_features := fun _ => true
    output_directory_exists := fun _ => true }

/-! # Lemmas -/

/-! ## The filter map -/

namespace filters_t

theorem find_nil (k : String) : find [] k = none := rfl

theorem find_cons (k k' : String) (v : Bool) (m : filters_t) :
    find ((k', v) :: m) k = if k = k' then some v else find m k := by
  unfold find
  by_cases h : k = k'
  · simp [List.lookup, h]
  · have hb : (k == k') = false := by simpa using h
    simp [List.lookup, hb, h]

theorem find_assign (m : filters_t) (k k' : String) (v : Bool) :
    (m.assign k v).find k' = if k' = k then some v else m.find k' := by
  induction m with
  | nil => simp [assign, find_cons, find_nil]
  | cons e m ih =>
    obtain ⟨k0, v0⟩ := e
    by_cases h0 : k0 = k
    · subst h0
      simp only [assign, if_true, find_cons]
      by_cases h1 : k' = k0 <;> simp [h1]
    · simp only [assign, h0, if_false, find_cons, ih]
      by_cases h1 : k' = k0
      · have : ¬ k' = k := fun h => h0 (h1 ▸ h)
        simp [h1, h0]
      · simp [h1]

theorem find_eq_none_iff (m : filters_t) (k : String) : m.find k = none ↔ k ∉ m.keys := by
  induction m with
  | nil => simp [find_nil, keys]
  | cons e m ih =>
    obtain ⟨k0, v0⟩ := e
    by_cases h : k = k0
    · simp [find_cons, h, keys]
    · simp only [find_cons, h, if_false, ih]
      simp [keys, h]

theorem mem_keys_assign (m : filters_t) (k k' : String) (v : Bool) :
    k' ∈ (m.assign k v).keys ↔ k' = k ∨ k' ∈ m.keys := by
  have h := find_eq_none_iff (m.assign k v) k'
  have h' := find_eq_none_iff m k'
  rw [find_assign] at h
  by_cases hk : k' = k
  · simp [hk] at h ⊢
    exact h
  · simp only [hk, if_false] at h
    simp only [hk, false_or]
    constructor
    · intro h1
      by_contra h2
      exact (h.mp (h'.mpr h2)) h1
    · intro h1
      by_contra h2
      exact (h'.mp (h.mpr h2)) h1

theorem index_fst (m : filters_t) (k : String) : (m.index k).1 = (m.find k == some true) := by
  unfold index
  cases h : m.find k with
  | none => simp
  | some v => cases v <;> simp

theorem find_index (m : filters_t) (k k' : String) :
    (m.index k).2.find k' = if k' = k ∧ m.find k = none then some false else m.find k' := by
  unfold index
  cases h : m.find k with
  | none =>
    simp only [find_assign, and_true]
  | some v => simp

theorem index_of_find (m : filters_t) (k : String) (v : Bool) (h : m.find k = some v) :
    m.index k = (v, m) := by
  simp [index, h]

end filters_t

theorem default_filters_find (names : List String) (m : filters_t) (k : String) :
    (names.foldl (fun m name => m.assign name true) m).find k
      = if k ∈ names then some true else m.find k := by
  induction names generalizing m with
  | nil => simp
  | cons n names ih =>
    simp only [List.foldl_cons, ih, filters_t.find_assign, List.mem_cons]
    by_cases h1 : k ∈ names
    · simp [h1]
    · by_cases h2 : k = n
      · simp [h2]
      · simp [h1, h2]

/-! ## Words of a buffer and the extraction from a stream -/

theorem words_nil : words [] = [] := by
  simp [words, List.splitOnP_nil]

theorem words_cons_space (c : Char) (cs : List Char) (h : isspace c = true) :
    words (c :: cs) = words cs := by
  simp [words, List.splitOnP_cons, h]

theorem words_dropWhile (b : List Char) : words (b.dropWhile isspace) = words b := by
  induction b with
  | nil => rfl
  | cons c cs ih =>
    by_cases h : isspace c = true
    · rw [List.dropWhile_cons_of_pos h, ih, words_cons_space c cs h]
    · rw [List.dropWhile_cons_of_neg h]

theorem words_of_no_word (b : List Char) (h : b.dropWhile isspace = []) : words b = [] := by
  rw [← words_dropWhile, h, words_nil]

theorem words_cons_word (c : Char) (cs : List Char) (h : isspace c = false) :
    words (c :: cs)
      = String.mk ((c :: cs).takeWhile (fun c => !isspace c))
        :: words ((c :: cs).dropWhile (fun c => !isspace c)) := by
  have hsplit := List.takeWhile_append_dropWhile (fun c => !isspace c) (c :: cs)
  have htw : ∀ x ∈ (c :: cs).takeWhile (fun c => !isspace c), ¬ isspace x = true := by
    intro x hx
    have := List.mem_takeWhile_imp hx
    simpa using this
  have hne : (c :: cs).takeWhile (fun c => !isspace c) ≠ [] := by
    simp [List.takeWhile_cons, h]
  cases hrest : (c :: cs).dropWhile (fun c => !isspace c) with
  | nil =>
    rw [hrest, List.append_nil] at hsplit
    rw [hsplit] at htw hne ⊢
    rw [words_nil]
    simp only [words]
    rw [List.splitOnP_eq_single isspace _ htw]
    simp
  | cons s ys =>
    have hs : isspace s = true := by
      have h0 := List.head_dropWhile_not (fun c => !isspace c) (c :: cs)
        (by rw [hrest]; exact List.cons_ne_nil _ _)
      simp only [hrest, List.head_cons] at h0
      simpa using h0
    rw [words_cons_space s ys hs]
    conv_lhs => rw [← hsplit, hrest]
    simp only [words]
    rw [List.splitOnP_first isspace _ htw s hs ys]
    have hemp : ((c :: cs).takeWhile (fun c => !isspace c)).isEmpty = false := by
      cases hq : (c :: cs).takeWhile (fun c => !isspace c) with
      | nil => exact absurd hq hne
      | cons _ _ => rfl
    simp [hemp]

theorem words_ne_empty (b : List Char) : ∀ w ∈ words b, w ≠ "" := by
  intro w hw
  simp only [words, List.mem_map, List.mem_filter] at hw
  obtain ⟨l, ⟨_, hl⟩, rfl⟩ := hw
  intro h
  have : l = [] := by
    have := congrArg String.data h
    simpa using this
  simp [this] at hl

/-! ## The loop of `case 'f'` -/

namespace ariba

theorem disable_filters_of_failbit (fuel : Nat) (ss : istringstream) (m : filters_t)
    (h : ss.failbit = true) : disable_filters fuel ss m = Except.ok (ss, m) := by
  cases fuel with
  | zero => rfl
  | succ n => simp [disable_filters, istringstream.good, h]

theorem dropWhile_not_space_length (c : Char) (cs : List Char) (h : isspace c = false) :
    ((c :: cs).dropWhile (fun c => !isspace c)).length ≤ cs.length := by
  rw [List.dropWhile_cons_of_pos (by simp [h])]
  exact (List.dropWhile_sublist _).length_le

theorem string_mk_takeWhile_ne (c : Char) (cs : List Char) (h : isspace c = false) :
    String.mk ((c :: cs).takeWhile (fun c => !isspace c)) ≠ "" := by
  intro h0
  have := congrArg String.data h0
  simp [List.takeWhile_cons, h] at this

/-- The loop of `case 'f'` on a stream that has not failed: it disables the words of the
buffer in turn, then the empty string that the failing last extraction leaves, and
ends with `eofbit` and `failbit` set. -/
theorem disable_filters_eq (fuel : Nat) : ∀ (ss : istringstream) (m : filters_t),
    ss.failbit = false → (ss.eofbit = true → ss.buf = []) → ss.buf.length + 2 ≤ fuel →
    disable_filters fuel ss m =
      match disable_names (words ss.buf) m with
      | Except.error e => Except.error e
      | Except.ok m' => Except.ok (⟨[], true, true⟩, m'.assign "" false) := by
  induction fuel with
  | zero => intro ss m _ _ h; omega
  | succ n ih =>
    intro ss m hf he hlen
    obtain ⟨buf, eof, fail⟩ := ss
    simp only at hf he hlen
    subst hf
    cases eof with
    | true =>
      have hb : buf = [] := he rfl
      subst hb
      simp only [disable_filters, istringstream.good, istringstream.extract, words_nil,
        disable_names]
      simp [disable_filters_of_failbit]
    | false =>
      cases hb : buf.dropWhile isspace with
      | nil =>
        rw [words_of_no_word buf hb]
        simp only [disable_filters, istringstream.good, istringstream.extract, hb, disable_names]
        simp [disable_filters_of_failbit]
      | cons c cs =>
        have hc : isspace c = false := by
          have h0 := List.head_dropWhile_not isspace buf (by rw [hb]; exact List.cons_ne_nil _ _)
          simp only [hb, List.head_cons] at h0
          simpa using h0
        have hw : words buf = String.mk ((c :: cs).takeWhile (fun c => !isspace c))
            :: words ((c :: cs).dropWhile (fun c => !isspace c)) := by
          rw [← words_dropWhile, hb, words_cons_word c cs hc]
        have hne := string_mk_takeWhile_ne c cs hc
        have hl1 := dropWhile_not_space_length c cs hc
        have hl2 : (c :: cs).length ≤ buf.length := by
          rw [← hb]; exact (List.dropWhile_sublist _).length_le
        simp only [List.length_cons] at hl2
        rw [hw]
        simp only [disable_filters, istringstream.good, istringstream.extract, hb, disable_names]
        simp only [Bool.or_self, Bool.false_eq_true, if_false, Bool.not_false, if_true,
          List.cons_ne_nil, hne, not_false_eq_true, true_and]
        by_cases hfind : m.find (String.mk ((c :: cs).takeWhile (fun c => !isspace c))) = none
        · simp only [hfind, if_true]
        · simp only [hfind, if_false]
          apply ih
          · rfl
          · intro h; simpa using h
          · simp only; omega

end ariba

namespace ariba

theorem parse_option_error (P : Platform) (st st' : scan_state) (c : Char) :
    parse_option P st (getopt_result.error c) ≠ Except.ok st' := by
  rw [parse_option]
  split <;> exact fun h => Except.noConfusion h

theorem parse_option_c (P : Platform) (st : scan_state) (a : String) :
    parse_option P st (getopt_result.option 'c' a) =
      (if P.access a then Except.ok { st with options.chimeric_bam_file := a }
      else Except.error (file_not_found a)) := rfl

theorem parse_option_r (P : Platform) (st : scan_state) (a : String) :
    parse_option P st (getopt_result.option 'r' a) =
      (if P.access a then Except.ok { st with options.read_through_bam_file := a }
      else Except.error (file_not_found a)) := rfl

theorem parse_option_x (P : Platform) (st : scan_state) (a : String) :
    parse_option P st (getopt_result.option 'x' a) =
      (if P.access a then
        if P.access (a ++ ".bai") then Except.ok { st with options.rna_bam_file := a }
        else Except.error (file_not_found (a ++ ".bai"))
      else Except.error (file_not_found a)) := rfl

theorem parse_option_g (P : Platform) (st : scan_state) (a : String) :
    parse_option P st (getopt_result.option 'g' a) =
      (if P.access a then Except.ok { st with options.gene_annotation_file := a }
      else Except.error (file_not_found a)) := rfl

theorem parse_option_e (P : Platform) (st : scan_state) (a : String) :
    parse_option P st (getopt_result.option 'e' a) =
      (if P.access a then Except.ok { st with options.exon_annotation_file := a }
      else Except.error (file_not_found a)) := rfl

theorem parse_option_o (P : Platform) (st : scan_state) (a : String) :
    parse_option P st (getopt_result.option 'o' a) =
      (Except.ok { st with options.output_file := a }) := rfl

theorem parse_option_upO (P : Platform) (st : scan_state) (a : String) :
    parse_option P st (getopt_result.option 'O' a) =
      (Except.ok { st with options.discarded_output_file := a }) := rfl

theorem parse_option_a (P : Platform) (st : scan_state) (a : String) :
    parse_option P st (getopt_result.option 'a' a) =
      (if P.access a then
        if P.access (a ++ ".fai") then Except.ok { st with options.assembly_file := a }
        else Except.error (file_not_found (a ++ ".fai"))
      else Except.error (file_not_found a)) := rfl

theorem parse_option_b (P : Platform) (st : scan_state) (a : String) :
    parse_option P st (getopt_result.option 'b' a) =
      (if P.access a then Except.ok { st with options.blacklist_file := a }
      else Except.error (file_not_found a)) := rfl

theorem parse_option_k (P : Platform) (st : scan_state) (a : String) :
    parse_option P st (getopt_result.option 'k' a) =
      (if P.access a then Except.ok { st with options.known_fusions_file := a }
      else Except.error (file_not_found a)) := rfl

theorem parse_option_i (P : Platform) (st : scan_state) (a : String) :
    parse_option P st (getopt_result.option 'i' a) =
      (Except.ok { st with options.interesting_contigs := replace_commas a }) := rfl

theorem parse_option_f (P : Platform) (st : scan_state) (a : String) :
    parse_option P st (getopt_result.option 'f' a) =
      (match disable_filters ((replace_commas a).data.length + 2)
          (st.disabled_filters_ss.str (replace_commas a)) st.options.filters with
      | Except.error e => Except.error e
      | Except.ok (ss, filters) =>
        Except.ok { options := { st.options with filters := filters }, disabled_filters_ss := ss }) := rfl

theorem parse_option_upE (P : Platform) (st : scan_state) (a : String) :
    parse_option P st (getopt_result.option 'E' a) =
      (Except.ok { st with options.evalue_cutoff := P.atof a }) := rfl

theorem parse_option_s (P : Platform) (st : scan_state) (a : String) :
    parse_option P st (getopt_result.option 's' a) =
      (Except.ok { st with options.min_support := P.atoi a }) := rfl

theorem parse_option_l (P : Platform) (st : scan_state) (a : String) :
    parse_option P st (getopt_result.option 'l' a) =
      (Except.ok { st with options.low_tumor_content := true }) := rfl

theorem parse_option_m (P : Platform) (st : scan_state) (a : String) :
    parse_option P st (getopt_result.option 'm' a) =
      (if (P.atof a).lt_zero || (P.atof a).gt_one then
        Except.error (Exit.usage
          ("Argument to -" ++ String.singleton P.optopt_after_option
            ++ " must be between 0 and 1."))
      else Except.ok { st with options.max_mismapper_fraction := P.atof a }) := rfl

theorem parse_option_upH (P : Platform) (st : scan_state) (a : String) :
    parse_option P st (getopt_result.option 'H' a) =
      (Except.ok { st with options.homopolymer_length := P.atoi a }) := rfl

theorem parse_option_upD (P : Platform) (st : scan_state) (a : String) :
    parse_option P st (getopt_result.option 'D' a) =
      (Except.ok { st with options.min_read_through_distance := P.atoi a }) := rfl

theorem parse_option_upA (P : Platform) (st : scan_state) (a : String) :
    parse_option P st (getopt_result.option 'A' a) =
      (Except.ok { st with options.min_anchor_length := P.atoi a }) := rfl

theorem parse_option_upK (P : Platform) (st : scan_state) (a : String) :
    parse_option P st (getopt_result.option 'K' a) =
      (Except.ok { st with options.max_kmer_content := P.atof a }) := rfl

theorem parse_option_upI (P : Platform) (st : scan_state) (a : String) :
    parse_option P st (getopt_result.option 'I' a) =
      (if ¬ st.options.print_supporting_reads then
        Except.ok { st with options.print_supporting_reads := true }
      else Except.ok { st with options.print_supporting_reads_for_discarded_fusions := true }) := rfl

theorem parse_option_default (P : Platform) (st : scan_state) (d : Char) (a : String)
    (h : d ∉ ['c', 'r', 'x', 'g', 'e', 'o', 'O', 'a', 'b', 'k', 'i', 'f', 'E', 's', 'l', 'm', 'H', 'D', 'A', 'K', 'I']) :
    parse_option P st (getopt_result.option d a) = Except.error (Exit.usage "") := by
  simp only [List.mem_cons, List.mem_singleton, List.not_mem_nil, not_or, or_false] at h
  obtain ⟨h0, h1, h2, h3, h4, h5, h6, h7, h8, h9, h10, h11, h12, h13, h14, h15, h16, h17, h18, h19, h20⟩ := h
  rw [parse_option, if_neg h0, if_neg h1, if_neg h2, if_neg h3, if_neg h4, if_neg h5, if_neg h6, if_neg h7, if_neg h8, if_neg h9, if_neg h10, if_neg h11, if_neg h12, if_neg h13, if_neg h14, if_neg h15, if_neg h16, if_neg h17, if_neg h18, if_neg h19, if_neg h20]

end ariba

namespace ariba

/-- What a successful pass through the `switch` did, option by option. -/
theorem parse_option_ok (P : Platform) (st st' : scan_state) (d : Char) (a : String)
    (hs : parse_option P st (getopt_result.option d a) = Except.ok st') :
    (d = 'c' ∧ P.access a = true ∧ st' = { st with options.chimeric_bam_file := a })
    ∨ (d = 'r' ∧ P.access a = true ∧ st' = { st with options.read_through_bam_file := a })
    ∨ (d = 'x' ∧ P.access a = true ∧ P.access (a ++ ".bai") = true ∧ st' = { st with options.rna_bam_file := a })
    ∨ (d = 'g' ∧ P.access a = true ∧ st' = { st with options.gene_annotation_file := a })
    ∨ (d = 'e' ∧ P.access a = true ∧ st' = { st with options.exon_annotation_file := a })
    ∨ (d = 'o' ∧ st' = { st with options.output_file := a })
    ∨ (d = 'O' ∧ st' = { st with options.discarded_output_file := a })
    ∨ (d = 'a' ∧ P.access a = true ∧ P.access (a ++ ".fai") = true ∧ st' = { st with options.assembly_file := a })
    ∨ (d = 'b' ∧ P.access a = true ∧ st' = { st with options.blacklist_file := a })
    ∨ (d = 'k' ∧ P.access a = true ∧ st' = { st with options.known_fusions_file := a })
    ∨ (d = 'i' ∧ st' = { st with options.interesting_contigs := replace_commas a })
    ∨ (d = 'f' ∧ ∃ ss filters, disable_filters ((replace_commas a).data.length + 2)
        (st.disabled_filters_ss.str (replace_commas a)) st.options.filters = Except.ok (ss, filters)
      ∧ st' = { options := { st.options with filters := filters }, disabled_filters_ss := ss })
    ∨ (d = 'E' ∧ st' = { st with options.evalue_cutoff := P.atof a })
    ∨ (d = 's' ∧ st' = { st with options.min_support := P.atoi a })
    ∨ (d = 'l' ∧ st' = { st with options.low_tumor_content := true })
    ∨ (d = 'm' ∧ ((P.atof a).lt_zero || (P.atof a).gt_one) = false
      ∧ st' = { st with options.max_mismapper_fraction := P.atof a })
    ∨ (d = 'H' ∧ st' = { st with options.homopolymer_length := P.atoi a })
    ∨ (d = 'D' ∧ st' = { st with options.min_read_through_distance := P.atoi a })
    ∨ (d = 'A' ∧ st' = { st with options.min_anchor_length := P.atoi a })
    ∨ (d = 'K' ∧ st' = { st with options.max_kmer_content := P.atof a })
    ∨ (d = 'I' ∧ st.options.print_supporting_reads = false
      ∧ st' = { st with options.print_supporting_reads := true })
    ∨ (d = 'I' ∧ st.options.print_supporting_reads = true
      ∧ st' = { st with options.print_supporting_reads_for_discarded_fusions := true }) := by
  by_cases hd : d ∈ ['c', 'r', 'x', 'g', 'e', 'o', 'O', 'a', 'b', 'k', 'i', 'f', 'E', 's', 'l', 'm', 'H', 'D', 'A', 'K', 'I']
  · simp only [List.mem_cons, List.mem_singleton, List.not_mem_nil, or_false] at hd
    rcases hd with rfl | rfl | rfl | rfl | rfl | rfl | rfl | rfl | rfl | rfl | rfl | rfl | rfl | rfl | rfl | rfl | rfl | rfl | rfl | rfl | rfl
    · refine Or.inl ?_
      rw [parse_option_c] at hs
      split at hs
      · cases hs; exact ⟨rfl, ‹_›, rfl⟩
      · cases hs
    · refine Or.inr (Or.inl ?_)
      rw [parse_option_r] at hs
      split at hs
      · cases hs; exact ⟨rfl, ‹_›, rfl⟩
      · cases hs
    · refine Or.inr (Or.inr (Or.inl ?_))
      rw [parse_option_x] at hs
      split at hs
      · split at hs
        · cases hs; exact ⟨rfl, ‹_›, ‹_›, rfl⟩
        · cases hs
      · cases hs
    · refine Or.inr (Or.inr (Or.inr (Or.inl ?_)))
      rw [parse_option_g] at hs
      split at hs
      · cases hs; exact ⟨rfl, ‹_›, rfl⟩
      · cases hs
    · refine Or.inr (Or.inr (Or.inr (Or.inr (Or.inl ?_))))
      rw [parse_option_e] at hs
      split at hs
      · cases hs; exact ⟨rfl, ‹_›, rfl⟩
      · cases hs
    · refine Or.inr (Or.inr (Or.inr (Or.inr (Or.inr (Or.inl ?_)))))
      rw [parse_option_o] at hs
      cases hs; exact ⟨rfl, rfl⟩
    · refine Or.inr (Or.inr (Or.inr (Or.inr (Or.inr (Or.inr (Or.inl ?_))))))
      rw [parse_option_upO] at hs
      cases hs; exact ⟨rfl, rfl⟩
    · refine Or.inr (Or.inr (Or.inr (Or.inr (Or.inr (Or.inr (Or.inr (Or.inl ?_)))))))
      rw [parse_option_a] at hs
      split at hs
      · split at hs
        · cases hs; exact ⟨rfl, ‹_›, ‹_›, rfl⟩
        · cases hs
      · cases hs
    · refine Or.inr (Or.inr (Or.inr (Or.inr (Or.inr (Or.inr (Or.inr (Or.inr (Or.inl ?_))))))))
      rw [parse_option_b] at hs
      split at hs
      · cases hs; exact ⟨rfl, ‹_›, rfl⟩
      · cases hs
    · refine Or.inr (Or.inr (Or.inr (Or.inr (Or.inr (Or.inr (Or.inr (Or.inr (Or.inr (Or.inl ?_)))))))))
      rw [parse_option_k] at hs
      split at hs
      · cases hs; exact ⟨rfl, ‹_›, rfl⟩
      · cases hs
    · refine Or.inr (Or.inr (Or.inr (Or.inr (Or.inr (Or.inr (Or.inr (Or.inr (Or.inr (Or.inr (Or.inl ?_))))))))))
      rw [parse_option_i] at hs
      cases hs; exact ⟨rfl, rfl⟩
    · refine Or.inr (Or.inr (Or.inr (Or.inr (Or.inr (Or.inr (Or.inr (Or.inr (Or.inr (Or.inr (Or.inr (Or.inl ?_)))))))))))
      rw [parse_option_f] at hs
      split at hs
      · cases hs
      · cases hs; exact ⟨rfl, _, _, ‹_›, rfl⟩
    · refine Or.inr (Or.inr (Or.inr (Or.inr (Or.inr (Or.inr (Or.inr (Or.inr (Or.inr (Or.inr (Or.inr (Or.inr (Or.inl ?_))))))))))))
      rw [parse_option_upE] at hs
      cases hs; exact ⟨rfl, rfl⟩
    · refine Or.inr (Or.inr (Or.inr (Or.inr (Or.inr (Or.inr (Or.inr (Or.inr (Or.inr (Or.inr (Or.inr (Or.inr (Or.inr (Or.inl ?_)))))))))))))
      rw [parse_option_s] at hs
      cases hs; exact ⟨rfl, rfl⟩
    · refine Or.inr (Or.inr (Or.inr (Or.inr (Or.inr (Or.inr (Or.inr (Or.inr (Or.inr (Or.inr (Or.inr (Or.inr (Or.inr (Or.inr (Or.inl ?_))))))))))))))
      rw [parse_option_l] at hs
      cases hs; exact ⟨rfl, rfl⟩
    · refine Or.inr (Or.inr (Or.inr (Or.inr (Or.inr (Or.inr (Or.inr (Or.inr (Or.inr (Or.inr (Or.inr (Or.inr (Or.inr (Or.inr (Or.inr (Or.inl ?_)))))))))))))))
      rw [parse_option_m] at hs
      split at hs
      · cases hs
      · rename_i h; cases hs; exact ⟨rfl, by simpa using h, rfl⟩
    · refine Or.inr (Or.inr (Or.inr (Or.inr (Or.inr (Or.inr (Or.inr (Or.inr (Or.inr (Or.inr (Or.inr (Or.inr (Or.inr (Or.inr (Or.inr (Or.inr (Or.inl ?_))))))))))))))))
      rw [parse_option_upH] at hs
      cases hs; exact ⟨rfl, rfl⟩
    · refine Or.inr (Or.inr (Or.inr (Or.inr (Or.inr (Or.inr (Or.inr (Or.inr (Or.inr (Or.inr (Or.inr (Or.inr (Or.inr (Or.inr (Or.inr (Or.inr (Or.inr (Or.inl ?_)))))))))))))))))
      rw [parse_option_upD] at hs
      cases hs; exact ⟨rfl, rfl⟩
    · refine Or.inr (Or.inr (Or.inr (Or.inr (Or.inr (Or.inr (Or.inr (Or.inr (Or.inr (Or.inr (Or.inr (Or.inr (Or.inr (Or.inr (Or.inr (Or.inr (Or.inr (Or.inr (Or.inl ?_))))))))))))))))))
      rw [parse_option_upA] at hs
      cases hs; exact ⟨rfl, rfl⟩
    · refine Or.inr (Or.inr (Or.inr (Or.inr (Or.inr (Or.inr (Or.inr (Or.inr (Or.inr (Or.inr (Or.inr (Or.inr (Or.inr (Or.inr (Or.inr (Or.inr (Or.inr (Or.inr (Or.inr (Or.inl ?_)))))))))))))))))))
      rw [parse_option_upK] at hs
      cases hs; exact ⟨rfl, rfl⟩
    · refine Or.inr (Or.inr (Or.inr (Or.inr (Or.inr (Or.inr (Or.inr (Or.inr (Or.inr (Or.inr (Or.inr (Or.inr (Or.inr (Or.inr (Or.inr (Or.inr (Or.inr (Or.inr (Or.inr (Or.inr ?_)))))))))))))))))))
      rw [parse_option_upI] at hs
      split at hs
      · rename_i h; cases hs; exact Or.inl ⟨rfl, by simpa using h, rfl⟩
      · rename_i h; cases hs; exact Or.inr ⟨rfl, by simpa using h, rfl⟩
  · rw [parse_option_default P st d a hd] at hs
    cases hs

end ariba

theorem flag_count_cons (c : Char) (r : getopt_result) (rs : List getopt_result) :
    flag_count c (r :: rs) = flag_count c rs + if r.is_flag c then 1 else 0 := by
  simp [flag_count, List.countP_cons]

theorem flag_count_append (c : Char) (rs rs' : List getopt_result) :
    flag_count c (rs ++ rs') = flag_count c rs + flag_count c rs' := by
  simp [flag_count, List.countP_append]

namespace ariba

theorem scan_nil (P : Platform) (st : scan_state) : scan P st [] = Except.ok st := rfl

theorem scan_cons_ok (P : Platform) (st st' : scan_state) (r : getopt_result)
    (rs : List getopt_result) :
    scan P st (r :: rs) = Except.ok st' ↔
      ∃ st1, parse_option P st r = Except.ok st1 ∧ scan P st1 rs = Except.ok st' := by
  rw [scan]
  cases h : parse_option P st r with
  | error e => simp
  | ok st1 => simp

theorem scan_cons_error (P : Platform) (st : scan_state) (r : getopt_result)
    (rs : List getopt_result) (e : Exit) (h : parse_option P st r = Except.error e) :
    scan P st (r :: rs) = Except.error e := by
  rw [scan, h]

theorem scan_append (P : Platform) (rs rs' : List getopt_result) : ∀ (st : scan_state),
    scan P st (rs ++ rs') =
      match scan P st rs with
      | Except.error e => Except.error e
      | Except.ok st1 => scan P st1 rs' := by
  induction rs with
  | nil => intro st; rfl
  | cons r rs ih =>
    intro st
    rw [List.cons_append, scan, scan]
    cases parse_option P st r with
    | error e => rfl
    | ok st1 => exact ih st1

/-- A quantity that only the flag `-c` changes is the same before and after a scan in
which `-c` does not occur. -/
theorem scan_frame {β : Type} (P : Platform) (g : scan_state → β) (c : Char)
    (hstep : ∀ st st' d a, d ≠ c →
      parse_option P st (getopt_result.option d a) = Except.ok st' → g st' = g st)
    (rs : List getopt_result) : ∀ (st st' : scan_state),
    flag_count c rs = 0 → scan P st rs = Except.ok st' → g st' = g st := by
  induction rs with
  | nil =>
    intro st st' _ hs
    cases hs
    rfl
  | cons r rs ih =>
    intro st st' hc hs
    obtain ⟨st1, h1, h2⟩ := (scan_cons_ok P st st' r rs).mp hs
    rw [flag_count_cons] at hc
    cases r with
    | error optopt => exact absurd h1 (parse_option_error P st st1 optopt)
    | option d a =>
      have hd : d ≠ c := by
        intro h
        simp [getopt_result.is_flag, h] at hc
      rw [ih st1 st' (by omega) h2, hstep st st1 d a hd h1]

theorem frame_chimeric_bam_file (P : Platform) (st st' : scan_state) (d : Char) (a : String)
    (h : d ≠ 'c') (hs : parse_option P st (getopt_result.option d a) = Except.ok st') :
    st'.options.chimeric_bam_file = st.options.chimeric_bam_file := by
  rcases parse_option_ok P st st' d a hs with
    ⟨rfl, -, rfl⟩ | ⟨rfl, -, rfl⟩ | ⟨rfl, -, -, rfl⟩ | ⟨rfl, -, rfl⟩ | ⟨rfl, -, rfl⟩ | ⟨rfl, rfl⟩ | ⟨rfl, rfl⟩ | ⟨rfl, -, -, rfl⟩ | ⟨rfl, -, rfl⟩ | ⟨rfl, -, rfl⟩ | ⟨rfl, rfl⟩ | ⟨rfl, ss, filters, -, rfl⟩ | ⟨rfl, rfl⟩ | ⟨rfl, rfl⟩ | ⟨rfl, rfl⟩ | ⟨rfl, -, rfl⟩ | ⟨rfl, rfl⟩ | ⟨rfl, rfl⟩ | ⟨rfl, rfl⟩ | ⟨rfl, rfl⟩ | ⟨rfl, -, rfl⟩ | ⟨rfl, -, rfl⟩
  all_goals first | rfl | exact absurd rfl h

theorem frame_read_through_bam_file (P : Platform) (st st' : scan_state) (d : Char) (a : String)
    (h : d ≠ 'r') (hs : parse_option P st (getopt_result.option d a) = Except.ok st') :
    st'.options.read_through_bam_file = st.options.read_through_bam_file := by
  rcases parse_option_ok P st st' d a hs with
    ⟨rfl, -, rfl⟩ | ⟨rfl, -, rfl⟩ | ⟨rfl, -, -, rfl⟩ | ⟨rfl, -, rfl⟩ | ⟨rfl, -, rfl⟩ | ⟨rfl, rfl⟩ | ⟨rfl, rfl⟩ | ⟨rfl, -, -, rfl⟩ | ⟨rfl, -, rfl⟩ | ⟨rfl, -, rfl⟩ | ⟨rfl, rfl⟩ | ⟨rfl, ss, filters, -, rfl⟩ | ⟨rfl, rfl⟩ | ⟨rfl, rfl⟩ | ⟨rfl, rfl⟩ | ⟨rfl, -, rfl⟩ | ⟨rfl, rfl⟩ | ⟨rfl, rfl⟩ | ⟨rfl, rfl⟩ | ⟨rfl, rfl⟩ | ⟨rfl, -, rfl⟩ | ⟨rfl, -, rfl⟩
  all_goals first | rfl | exact absurd rfl h

theorem frame_rna_bam_file (P : Platform) (st st' : scan_state) (d : Char) (a : String)
    (h : d ≠ 'x') (hs : parse_option P st (getopt_result.option d a) = Except.ok st') :
    st'.options.rna_bam_file = st.options.rna_bam_file := by
  rcases parse_option_ok P st st' d a hs with
    ⟨rfl, -, rfl⟩ | ⟨rfl, -, rfl⟩ | ⟨rfl, -, -, rfl⟩ | ⟨rfl, -, rfl⟩ | ⟨rfl, -, rfl⟩ | ⟨rfl, rfl⟩ | ⟨rfl, rfl⟩ | ⟨rfl, -, -, rfl⟩ | ⟨rfl, -, rfl⟩ | ⟨rfl, -, rfl⟩ | ⟨rfl, rfl⟩ | ⟨rfl, ss, filters, -, rfl⟩ | ⟨rfl, rfl⟩ | ⟨rfl, rfl⟩ | ⟨rfl, rfl⟩ | ⟨rfl, -, rfl⟩ | ⟨rfl, rfl⟩ | ⟨rfl, rfl⟩ | ⟨rfl, rfl⟩ | ⟨rfl, rfl⟩ | ⟨rfl, -, rfl⟩ | ⟨rfl, -, rfl⟩
  all_goals first | rfl | exact absurd rfl h

theorem frame_gene_annotation_file (P : Platform) (st st' : scan_state) (d : Char) (a : String)
    (h : d ≠ 'g') (hs : parse_option P st (getopt_result.option d a) = Except.ok st') :
    st'.options.gene_annotation_file = st.options.gene_annotation_file := by
  rcases parse_option_ok P st st' d a hs with
    ⟨rfl, -, rfl⟩ | ⟨rfl, -, rfl⟩ | ⟨rfl, -, -, rfl⟩ | ⟨rfl, -, rfl⟩ | ⟨rfl, -, rfl⟩ | ⟨rfl, rfl⟩ | ⟨rfl, rfl⟩ | ⟨rfl, -, -, rfl⟩ | ⟨rfl, -, rfl⟩ | ⟨rfl, -, rfl⟩ | ⟨rfl, rfl⟩ | ⟨rfl, ss, filters, -, rfl⟩ | ⟨rfl, rfl⟩ | ⟨rfl, rfl⟩ | ⟨rfl, rfl⟩ | ⟨rfl, -, rfl⟩ | ⟨rfl, rfl⟩ | ⟨rfl, rfl⟩ | ⟨rfl, rfl⟩ | ⟨rfl, rfl⟩ | ⟨rfl, -, rfl⟩ | ⟨rfl, -, rfl⟩
  all_goals first | rfl | exact absurd rfl h

theorem frame_exon_annotation_file (P : Platform) (st st' : scan_state) (d : Char) (a : String)
    (h : d ≠ 'e') (hs : parse_option P st (getopt_result.option d a) = Except.ok st') :
    st'.options.exon_annotation_file = st.options.exon_annotation_file := by
  rcases parse_option_ok P st st' d a hs with
    ⟨rfl, -, rfl⟩ | ⟨rfl, -, rfl⟩ | ⟨rfl, -, -, rfl⟩ | ⟨rfl, -, rfl⟩ | ⟨rfl, -, rfl⟩ | ⟨rfl, rfl⟩ | ⟨rfl, rfl⟩ | ⟨rfl, -, -, rfl⟩ | ⟨rfl, -, rfl⟩ | ⟨rfl, -, rfl⟩ | ⟨rfl, rfl⟩ | ⟨rfl, ss, filters, -, rfl⟩ | ⟨rfl, rfl⟩ | ⟨rfl, rfl⟩ | ⟨rfl, rfl⟩ | ⟨rfl, -, rfl⟩ | ⟨rfl, rfl⟩ | ⟨rfl, rfl⟩ | ⟨rfl, rfl⟩ | ⟨rfl, rfl⟩ | ⟨rfl, -, rfl⟩ | ⟨rfl, -, rfl⟩
  all_goals first | rfl | exact absurd rfl h

theorem frame_output_file (P : Platform) (st st' : scan_state) (d : Char) (a : String)
    (h : d ≠ 'o') (hs : parse_option P st (getopt_result.option d a) = Except.ok st') :
    st'.options.output_file = st.options.output_file := by
  rcases parse_option_ok P st st' d a hs with
    ⟨rfl, -, rfl⟩ | ⟨rfl, -, rfl⟩ | ⟨rfl, -, -, rfl⟩ | ⟨rfl, -, rfl⟩ | ⟨rfl, -, rfl⟩ | ⟨rfl, rfl⟩ | ⟨rfl, rfl⟩ | ⟨rfl, -, -, rfl⟩ | ⟨rfl, -, rfl⟩ | ⟨rfl, -, rfl⟩ | ⟨rfl, rfl⟩ | ⟨rfl, ss, filters, -, rfl⟩ | ⟨rfl, rfl⟩ | ⟨rfl, rfl⟩ | ⟨rfl, rfl⟩ | ⟨rfl, -, rfl⟩ | ⟨rfl, rfl⟩ | ⟨rfl, rfl⟩ | ⟨rfl, rfl⟩ | ⟨rfl, rfl⟩ | ⟨rfl, -, rfl⟩ | ⟨rfl, -, rfl⟩
  all_goals first | rfl | exact absurd rfl h

theorem frame_discarded_output_file (P : Platform) (st st' : scan_state) (d : Char) (a : String)
    (h : d ≠ 'O') (hs : parse_option P st (getopt_result.option d a) = Except.ok st') :
    st'.options.discarded_output_file = st.options.discarded_output_file := by
  rcases parse_option_ok P st st' d a hs with
    ⟨rfl, -, rfl⟩ | ⟨rfl, -, rfl⟩ | ⟨rfl, -, -, rfl⟩ | ⟨rfl, -, rfl⟩ | ⟨rfl, -, rfl⟩ | ⟨rfl, rfl⟩ | ⟨rfl, rfl⟩ | ⟨rfl, -, -, rfl⟩ | ⟨rfl, -, rfl⟩ | ⟨rfl, -, rfl⟩ | ⟨rfl, rfl⟩ | ⟨rfl, ss, filters, -, rfl⟩ | ⟨rfl, rfl⟩ | ⟨rfl, rfl⟩ | ⟨rfl, rfl⟩ | ⟨rfl, -, rfl⟩ | ⟨rfl, rfl⟩ | ⟨rfl, rfl⟩ | ⟨rfl, rfl⟩ | ⟨rfl, rfl⟩ | ⟨rfl, -, rfl⟩ | ⟨rfl, -, rfl⟩
  all_goals first | rfl | exact absurd rfl h

theorem frame_assembly_file (P : Platform) (st st' : scan_state) (d : Char) (a : String)
    (h : d ≠ 'a') (hs : parse_option P st (getopt_result.option d a) = Except.ok st') :
    st'.options.assembly_file = st.options.assembly_file := by
  rcases parse_option_ok P st st' d a hs with
    ⟨rfl, -, rfl⟩ | ⟨rfl, -, rfl⟩ | ⟨rfl, -, -, rfl⟩ | ⟨rfl, -, rfl⟩ | ⟨rfl, -, rfl⟩ | ⟨rfl, rfl⟩ | ⟨rfl, rfl⟩ | ⟨rfl, -, -, rfl⟩ | ⟨rfl, -, rfl⟩ | ⟨rfl, -, rfl⟩ | ⟨rfl, rfl⟩ | ⟨rfl, ss, filters, -, rfl⟩ | ⟨rfl, rfl⟩ | ⟨rfl, rfl⟩ | ⟨rfl, rfl⟩ | ⟨rfl, -, rfl⟩ | ⟨rfl, rfl⟩ | ⟨rfl, rfl⟩ | ⟨rfl, rfl⟩ | ⟨rfl, rfl⟩ | ⟨rfl, -, rfl⟩ | ⟨rfl, -, rfl⟩
  all_goals first | rfl | exact absurd rfl h

theorem frame_blacklist_file (P : Platform) (st st' : scan_state) (d : Char) (a : String)
    (h : d ≠ 'b') (hs : parse_option P st (getopt_result.option d a) = Except.ok st') :
    st'.options.blacklist_file = st.options.blacklist_file := by
  rcases parse_option_ok P st st' d a hs with
    ⟨rfl, -, rfl⟩ | ⟨rfl, -, rfl⟩ | ⟨rfl, -, -, rfl⟩ | ⟨rfl, -, rfl⟩ | ⟨rfl, -, rfl⟩ | ⟨rfl, rfl⟩ | ⟨rfl, rfl⟩ | ⟨rfl, -, -, rfl⟩ | ⟨rfl, -, rfl⟩ | ⟨rfl, -, rfl⟩ | ⟨rfl, rfl⟩ | ⟨rfl, ss, filters, -, rfl⟩ | ⟨rfl, rfl⟩ | ⟨rfl, rfl⟩ | ⟨rfl, rfl⟩ | ⟨rfl, -, rfl⟩ | ⟨rfl, rfl⟩ | ⟨rfl, rfl⟩ | ⟨rfl, rfl⟩ | ⟨rfl, rfl⟩ | ⟨rfl, -, rfl⟩ | ⟨rfl, -, rfl⟩
  all_goals first | rfl | exact absurd rfl h

theorem frame_known_fusions_file (P : Platform) (st st' : scan_state) (d : Char) (a : String)
    (h : d ≠ 'k') (hs : parse_option P st (getopt_result.option d a) = Except.ok st') :
    st'.options.known_fusions_file = st.options.known_fusions_file := by
  rcases parse_option_ok P st st' d a hs with
    ⟨rfl, -, rfl⟩ | ⟨rfl, -, rfl⟩ | ⟨rfl, -, -, rfl⟩ | ⟨rfl, -, rfl⟩ | ⟨rfl, -, rfl⟩ | ⟨rfl, rfl⟩ | ⟨rfl, rfl⟩ | ⟨rfl, -, -, rfl⟩ | ⟨rfl, -, rfl⟩ | ⟨rfl, -, rfl⟩ | ⟨rfl, rfl⟩ | ⟨rfl, ss, filters, -, rfl⟩ | ⟨rfl, rfl⟩ | ⟨rfl, rfl⟩ | ⟨rfl, rfl⟩ | ⟨rfl, -, rfl⟩ | ⟨rfl, rfl⟩ | ⟨rfl, rfl⟩ | ⟨rfl, rfl⟩ | ⟨rfl, rfl⟩ | ⟨rfl, -, rfl⟩ | ⟨rfl, -, rfl⟩
  all_goals first | rfl | exact absurd rfl h

theorem frame_interesting_contigs (P : Platform) (st st' : scan_state) (d : Char) (a : String)
    (h : d ≠ 'i') (hs : parse_option P st (getopt_result.option d a) = Except.ok st') :
    st'.options.interesting_contigs = st.options.interesting_contigs := by
  rcases parse_option_ok P st st' d a hs with
    ⟨rfl, -, rfl⟩ | ⟨rfl, -, rfl⟩ | ⟨rfl, -, -, rfl⟩ | ⟨rfl, -, rfl⟩ | ⟨rfl, -, rfl⟩ | ⟨rfl, rfl⟩ | ⟨rfl, rfl⟩ | ⟨rfl, -, -, rfl⟩ | ⟨rfl, -, rfl⟩ | ⟨rfl, -, rfl⟩ | ⟨rfl, rfl⟩ | ⟨rfl, ss, filters, -, rfl⟩ | ⟨rfl, rfl⟩ | ⟨rfl, rfl⟩ | ⟨rfl, rfl⟩ | ⟨rfl, -, rfl⟩ | ⟨rfl, rfl⟩ | ⟨rfl, rfl⟩ | ⟨rfl, rfl⟩ | ⟨rfl, rfl⟩ | ⟨rfl, -, rfl⟩ | ⟨rfl, -, rfl⟩
  all_goals first | rfl | exact absurd rfl h

theorem frame_filters (P : Platform) (st st' : scan_state) (d : Char) (a : String)
    (h : d ≠ 'f') (hs : parse_option P st (getopt_result.option d a) = Except.ok st') :
    st'.options.filters = st.options.filters := by
  rcases parse_option_ok P st st' d a hs with
    ⟨rfl, -, rfl⟩ | ⟨rfl, -, rfl⟩ | ⟨rfl, -, -, rfl⟩ | ⟨rfl, -, rfl⟩ | ⟨rfl, -, rfl⟩ | ⟨rfl, rfl⟩ | ⟨rfl, rfl⟩ | ⟨rfl, -, -, rfl⟩ | ⟨rfl, -, rfl⟩ | ⟨rfl, -, rfl⟩ | ⟨rfl, rfl⟩ | ⟨rfl, ss, filters, -, rfl⟩ | ⟨rfl, rfl⟩ | ⟨rfl, rfl⟩ | ⟨rfl, rfl⟩ | ⟨rfl, -, rfl⟩ | ⟨rfl, rfl⟩ | ⟨rfl, rfl⟩ | ⟨rfl, rfl⟩ | ⟨rfl, rfl⟩ | ⟨rfl, -, rfl⟩ | ⟨rfl, -, rfl⟩
  all_goals first | rfl | exact absurd rfl h

theorem frame_disabled_filters_ss (P : Platform) (st st' : scan_state) (d : Char) (a : String)
    (h : d ≠ 'f') (hs : parse_option P st (getopt_result.option d a) = Except.ok st') :
    st'.disabled_filters_ss = st.disabled_filters_ss := by
  rcases parse_option_ok P st st' d a hs with
    ⟨rfl, -, rfl⟩ | ⟨rfl, -, rfl⟩ | ⟨rfl, -, -, rfl⟩ | ⟨rfl, -, rfl⟩ | ⟨rfl, -, rfl⟩ | ⟨rfl, rfl⟩ | ⟨rfl, rfl⟩ | ⟨rfl, -, -, rfl⟩ | ⟨rfl, -, rfl⟩ | ⟨rfl, -, rfl⟩ | ⟨rfl, rfl⟩ | ⟨rfl, ss, filters, -, rfl⟩ | ⟨rfl, rfl⟩ | ⟨rfl, rfl⟩ | ⟨rfl, rfl⟩ | ⟨rfl, -, rfl⟩ | ⟨rfl, rfl⟩ | ⟨rfl, rfl⟩ | ⟨rfl, rfl⟩ | ⟨rfl, rfl⟩ | ⟨rfl, -, rfl⟩ | ⟨rfl, -, rfl⟩
  all_goals first | rfl | exact absurd rfl h

theorem frame_evalue_cutoff (P : Platform) (st st' : scan_state) (d : Char) (a : String)
    (h : d ≠ 'E') (hs : parse_option P st (getopt_result.option d a) = Except.ok st') :
    st'.options.evalue_cutoff = st.options.evalue_cutoff := by
  rcases parse_option_ok P st st' d a hs with
    ⟨rfl, -, rfl⟩ | ⟨rfl, -, rfl⟩ | ⟨rfl, -, -, rfl⟩ | ⟨rfl, -, rfl⟩ | ⟨rfl, -, rfl⟩ | ⟨rfl, rfl⟩ | ⟨rfl, rfl⟩ | ⟨rfl, -, -, rfl⟩ | ⟨rfl, -, rfl⟩ | ⟨rfl, -, rfl⟩ | ⟨rfl, rfl⟩ | ⟨rfl, ss, filters, -, rfl⟩ | ⟨rfl, rfl⟩ | ⟨rfl, rfl⟩ | ⟨rfl, rfl⟩ | ⟨rfl, -, rfl⟩ | ⟨rfl, rfl⟩ | ⟨rfl, rfl⟩ | ⟨rfl, rfl⟩ | ⟨rfl, rfl⟩ | ⟨rfl, -, rfl⟩ | ⟨rfl, -, rfl⟩
  all_goals first | rfl | exact absurd rfl h

theorem frame_min_support (P : Platform) (st st' : scan_state) (d : Char) (a : String)
    (h : d ≠ 's') (hs : parse_option P st (getopt_result.option d a) = Except.ok st') :
    st'.options.min_support = st.options.min_support := by
  rcases parse_option_ok P st st' d a hs with
    ⟨rfl, -, rfl⟩ | ⟨rfl, -, rfl⟩ | ⟨rfl, -, -, rfl⟩ | ⟨rfl, -, rfl⟩ | ⟨rfl, -, rfl⟩ | ⟨rfl, rfl⟩ | ⟨rfl, rfl⟩ | ⟨rfl, -, -, rfl⟩ | ⟨rfl, -, rfl⟩ | ⟨rfl, -, rfl⟩ | ⟨rfl, rfl⟩ | ⟨rfl, ss, filters, -, rfl⟩ | ⟨rfl, rfl⟩ | ⟨rfl, rfl⟩ | ⟨rfl, rfl⟩ | ⟨rfl, -, rfl⟩ | ⟨rfl, rfl⟩ | ⟨rfl, rfl⟩ | ⟨rfl, rfl⟩ | ⟨rfl, rfl⟩ | ⟨rfl, -, rfl⟩ | ⟨rfl, -, rfl⟩
  all_goals first | rfl | exact absurd rfl h

theorem frame_low_tumor_content (P : Platform) (st st' : scan_state) (d : Char) (a : String)
    (h : d ≠ 'l') (hs : parse_option P st (getopt_result.option d a) = Except.ok st') :
    st'.options.low_tumor_content = st.options.low_tumor_content := by
  rcases parse_option_ok P st st' d a hs with
    ⟨rfl, -, rfl⟩ | ⟨rfl, -, rfl⟩ | ⟨rfl, -, -, rfl⟩ | ⟨rfl, -, rfl⟩ | ⟨rfl, -, rfl⟩ | ⟨rfl, rfl⟩ | ⟨rfl, rfl⟩ | ⟨rfl, -, -, rfl⟩ | ⟨rfl, -, rfl⟩ | ⟨rfl, -, rfl⟩ | ⟨rfl, rfl⟩ | ⟨rfl, ss, filters, -, rfl⟩ | ⟨rfl, rfl⟩ | ⟨rfl, rfl⟩ | ⟨rfl, rfl⟩ | ⟨rfl, -, rfl⟩ | ⟨rfl, rfl⟩ | ⟨rfl, rfl⟩ | ⟨rfl, rfl⟩ | ⟨rfl, rfl⟩ | ⟨rfl, -, rfl⟩ | ⟨rfl, -, rfl⟩
  all_goals first | rfl | exact absurd rfl h

theorem frame_max_mismapper_fraction (P : Platform) (st st' : scan_state) (d : Char) (a : String)
    (h : d ≠ 'm') (hs : parse_option P st (getopt_result.option d a) = Except.ok st') :
    st'.options.max_mismapper_fraction = st.options.max_mismapper_fraction := by
  rcases parse_option_ok P st st' d a hs with
    ⟨rfl, -, rfl⟩ | ⟨rfl, -, rfl⟩ | ⟨rfl, -, -, rfl⟩ | ⟨rfl, -, rfl⟩ | ⟨rfl, -, rfl⟩ | ⟨rfl, rfl⟩ | ⟨rfl, rfl⟩ | ⟨rfl, -, -, rfl⟩ | ⟨rfl, -, rfl⟩ | ⟨rfl, -, rfl⟩ | ⟨rfl, rfl⟩ | ⟨rfl, ss, filters, -, rfl⟩ | ⟨rfl, rfl⟩ | ⟨rfl, rfl⟩ | ⟨rfl, rfl⟩ | ⟨rfl, -, rfl⟩ | ⟨rfl, rfl⟩ | ⟨rfl, rfl⟩ | ⟨rfl, rfl⟩ | ⟨rfl, rfl⟩ | ⟨rfl, -, rfl⟩ | ⟨rfl, -, rfl⟩
  all_goals first | rfl | exact absurd rfl h

theorem frame_homopolymer_length (P : Platform) (st st' : scan_state) (d : Char) (a : String)
    (h : d ≠ 'H') (hs : parse_option P st (getopt_result.option d a) = Except.ok st') :
    st'.options.homopolymer_length = st.options.homopolymer_length := by
  rcases parse_option_ok P st st' d a hs with
    ⟨rfl, -, rfl⟩ | ⟨rfl, -, rfl⟩ | ⟨rfl, -, -, rfl⟩ | ⟨rfl, -, rfl⟩ | ⟨rfl, -, rfl⟩ | ⟨rfl, rfl⟩ | ⟨rfl, rfl⟩ | ⟨rfl, -, -, rfl⟩ | ⟨rfl, -, rfl⟩ | ⟨rfl, -, rfl⟩ | ⟨rfl, rfl⟩ | ⟨rfl, ss, filters, -, rfl⟩ | ⟨rfl, rfl⟩ | ⟨rfl, rfl⟩ | ⟨rfl, rfl⟩ | ⟨rfl, -, rfl⟩ | ⟨rfl, rfl⟩ | ⟨rfl, rfl⟩ | ⟨rfl, rfl⟩ | ⟨rfl, rfl⟩ | ⟨rfl, -, rfl⟩ | ⟨rfl, -, rfl⟩
  all_goals first | rfl | exact absurd rfl h

theorem frame_min_read_through_distance (P : Platform) (st st' : scan_state) (d : Char) (a : String)
    (h : d ≠ 'D') (hs : parse_option P st (getopt_result.option d a) = Except.ok st') :
    st'.options.min_read_through_distance = st.options.min_read_through_distance := by
  rcases parse_option_ok P st st' d a hs with
    ⟨rfl, -, rfl⟩ | ⟨rfl, -, rfl⟩ | ⟨rfl, -, -, rfl⟩ | ⟨rfl, -, rfl⟩ | ⟨rfl, -, rfl⟩ | ⟨rfl, rfl⟩ | ⟨rfl, rfl⟩ | ⟨rfl, -, -, rfl⟩ | ⟨rfl, -, rfl⟩ | ⟨rfl, -, rfl⟩ | ⟨rfl, rfl⟩ | ⟨rfl, ss, filters, -, rfl⟩ | ⟨rfl, rfl⟩ | ⟨rfl, rfl⟩ | ⟨rfl, rfl⟩ | ⟨rfl, -, rfl⟩ | ⟨rfl, rfl⟩ | ⟨rfl, rfl⟩ | ⟨rfl, rfl⟩ | ⟨rfl, rfl⟩ | ⟨rfl, -, rfl⟩ | ⟨rfl, -, rfl⟩
  all_goals first | rfl | exact absurd rfl h

theorem frame_min_anchor_length (P : Platform) (st st' : scan_state) (d : Char) (a : String)
    (h : d ≠ 'A') (hs : parse_option P st (getopt_result.option d a) = Except.ok st') :
    st'.options.min_anchor_length = st.options.min_anchor_length := by
  rcases parse_option_ok P st st' d a hs with
    ⟨rfl, -, rfl⟩ | ⟨rfl, -, rfl⟩ | ⟨rfl, -, -, rfl⟩ | ⟨rfl, -, rfl⟩ | ⟨rfl, -, rfl⟩ | ⟨rfl, rfl⟩ | ⟨rfl, rfl⟩ | ⟨rfl, -, -, rfl⟩ | ⟨rfl, -, rfl⟩ | ⟨rfl, -, rfl⟩ | ⟨rfl, rfl⟩ | ⟨rfl, ss, filters, -, rfl⟩ | ⟨rfl, rfl⟩ | ⟨rfl, rfl⟩ | ⟨rfl, rfl⟩ | ⟨rfl, -, rfl⟩ | ⟨rfl, rfl⟩ | ⟨rfl, rfl⟩ | ⟨rfl, rfl⟩ | ⟨rfl, rfl⟩ | ⟨rfl, -, rfl⟩ | ⟨rfl, -, rfl⟩
  all_goals first | rfl | exact absurd rfl h

theorem frame_max_kmer_content (P : Platform) (st st' : scan_state) (d : Char) (a : String)
    (h : d ≠ 'K') (hs : parse_option P st (getopt_result.option d a) = Except.ok st') :
    st'.options.max_kmer_content = st.options.max_kmer_content := by
  rcases parse_option_ok P st st' d a hs with
    ⟨rfl, -, rfl⟩ | ⟨rfl, -, rfl⟩ | ⟨rfl, -, -, rfl⟩ | ⟨rfl, -, rfl⟩ | ⟨rfl, -, rfl⟩ | ⟨rfl, rfl⟩ | ⟨rfl, rfl⟩ | ⟨rfl, -, -, rfl⟩ | ⟨rfl, -, rfl⟩ | ⟨rfl, -, rfl⟩ | ⟨rfl, rfl⟩ | ⟨rfl, ss, filters, -, rfl⟩ | ⟨rfl, rfl⟩ | ⟨rfl, rfl⟩ | ⟨rfl, rfl⟩ | ⟨rfl, -, rfl⟩ | ⟨rfl, rfl⟩ | ⟨rfl, rfl⟩ | ⟨rfl, rfl⟩ | ⟨rfl, rfl⟩ | ⟨rfl, -, rfl⟩ | ⟨rfl, -, rfl⟩
  all_goals first | rfl | exact absurd rfl h

theorem frame_print_supporting_reads (P : Platform) (st st' : scan_state) (d : Char) (a : String)
    (h : d ≠ 'I') (hs : parse_option P st (getopt_result.option d a) = Except.ok st') :
    st'.options.print_supporting_reads = st.options.print_supporting_reads := by
  rcases parse_option_ok P st st' d a hs with
    ⟨rfl, -, rfl⟩ | ⟨rfl, -, rfl⟩ | ⟨rfl, -, -, rfl⟩ | ⟨rfl, -, rfl⟩ | ⟨rfl, -, rfl⟩ | ⟨rfl, rfl⟩ | ⟨rfl, rfl⟩ | ⟨rfl, -, -, rfl⟩ | ⟨rfl, -, rfl⟩ | ⟨rfl, -, rfl⟩ | ⟨rfl, rfl⟩ | ⟨rfl, ss, filters, -, rfl⟩ | ⟨rfl, rfl⟩ | ⟨rfl, rfl⟩ | ⟨rfl, rfl⟩ | ⟨rfl, -, rfl⟩ | ⟨rfl, rfl⟩ | ⟨rfl, rfl⟩ | ⟨rfl, rfl⟩ | ⟨rfl, rfl⟩ | ⟨rfl, -, rfl⟩ | ⟨rfl, -, rfl⟩
  all_goals first | rfl | exact absurd rfl h

theorem frame_print_supporting_reads_for_discarded_fusions (P : Platform) (st st' : scan_state) (d : Char) (a : String)
    (h : d ≠ 'I') (hs : parse_option P st (getopt_result.option d a) = Except.ok st') :
    st'.options.print_supporting_reads_for_discarded_fusions = st.options.print_supporting_reads_for_discarded_fusions := by
  rcases parse_option_ok P st st' d a hs with
    ⟨rfl, -, rfl⟩ | ⟨rfl, -, rfl⟩ | ⟨rfl, -, -, rfl⟩ | ⟨rfl, -, rfl⟩ | ⟨rfl, -, rfl⟩ | ⟨rfl, rfl⟩ | ⟨rfl, rfl⟩ | ⟨rfl, -, -, rfl⟩ | ⟨rfl, -, rfl⟩ | ⟨rfl, -, rfl⟩ | ⟨rfl, rfl⟩ | ⟨rfl, ss, filters, -, rfl⟩ | ⟨rfl, rfl⟩ | ⟨rfl, rfl⟩ | ⟨rfl, rfl⟩ | ⟨rfl, -, rfl⟩ | ⟨rfl, rfl⟩ | ⟨rfl, rfl⟩ | ⟨rfl, rfl⟩ | ⟨rfl, rfl⟩ | ⟨rfl, -, rfl⟩ | ⟨rfl, -, rfl⟩
  all_goals first | rfl | exact absurd rfl h

end ariba

/-! ## The flag `-f` -/

theorem first_unknown_assign (m : filters_t) (k : String) (hk : m.find k ≠ none)
    (names : List String) :
    first_unknown (m.assign k false) names = first_unknown m names := by
  unfold first_unknown
  congr 1
  funext name
  rw [filters_t.find_assign]
  by_cases h : name = k
  · subst h
    cases hm : m.find name with
    | none => exact absurd hm hk
    | some v => simp
  · simp [h]

theorem disable_names_of_first_unknown (names : List String) : ∀ (m : filters_t) (t : String),
    first_unknown m names = some t →
    disable_names names m = Except.error (Exit.usage ("Invalid argument to option -f: " ++ t)) := by
  induction names with
  | nil => intro m t h; simp [first_unknown] at h
  | cons n names ih =>
    intro m t h
    by_cases hn : m.find n = none
    · have : t = n := by
        simp [first_unknown, List.find?_cons, hn] at h
        exact h.symm
      subst this
      simp [disable_names, hn]
    · have h' : first_unknown m names = some t := by
        simpa [first_unknown, List.find?_cons, hn] using h
      rw [disable_names, if_neg hn]
      exact ih _ t (by rw [first_unknown_assign m n hn]; exact h')

theorem disable_names_of_all_known (names : List String) : ∀ (m : filters_t),
    first_unknown m names = none →
    disable_names names m = Except.ok (names.foldl (fun m name => m.assign name false) m) := by
  induction names with
  | nil => intro m _; rfl
  | cons n names ih =>
    intro m h
    have hn : m.find n ≠ none := by
      intro hn
      simp [first_unknown, List.find?_cons, hn] at h
    have h' : first_unknown m names = none := by
      simpa [first_unknown, List.find?_cons, hn] using h
    rw [disable_names, if_neg hn, List.foldl_cons]
    exact ih _ (by rw [first_unknown_assign m n hn]; exact h')

theorem disable_names_ok_iff (names : List String) (m m' : filters_t) :
    disable_names names m = Except.ok m' ↔
      first_unknown m names = none ∧ m' = names.foldl (fun m name => m.assign name false) m := by
  cases h : first_unknown m names with
  | none =>
    rw [disable_names_of_all_known names m h]
    constructor
    · intro h1; cases h1; exact ⟨rfl, rfl⟩
    · rintro ⟨_, rfl⟩; rfl
  | some t =>
    rw [disable_names_of_first_unknown names m t h]
    constructor
    · intro h1; cases h1
    · rintro ⟨h1, _⟩; cases h1

namespace ariba

/-- The flag `-f` on a stream that has not been used yet. -/
theorem parse_option_f_fresh (P : Platform) (st : scan_state) (v : String)
    (hss : st.disabled_filters_ss = istringstream.init) :
    parse_option P st (getopt_result.option 'f' v) =
      match disable_names (tokens v) st.options.filters with
      | Except.error e => Except.error e
      | Except.ok m =>
        Except.ok { options := { st.options with filters := m.assign "" false },
                    disabled_filters_ss := ⟨[], true, true⟩ } := by
  rw [parse_option_f, hss]
  have h := disable_filters_eq ((replace_commas v).data.length + 2)
    (istringstream.init.str (replace_commas v)) st.options.filters rfl
    (by intro h; cases h) (le_refl _)
  rw [h]
  simp only [istringstream.str, istringstream.init, tokens]
  cases disable_names (words (replace_commas v).data) st.options.filters with
  | error e => rfl
  | ok m => rfl

/-- The flag `-f` on a stream whose `failbit` is set: the loop body never runs. -/
theorem parse_option_f_failed (P : Platform) (st : scan_state) (v : String)
    (hss : st.disabled_filters_ss.failbit = true) :
    parse_option P st (getopt_result.option 'f' v) =
      Except.ok { st with disabled_filters_ss := st.disabled_filters_ss.str (replace_commas v) } := by
  rw [parse_option_f, disable_filters_of_failbit _ _ _ (by simpa [istringstream.str] using hss)]

theorem scan_stream_fresh (P : Platform) (rs : List getopt_result) (st st' : scan_state)
    (hc : flag_count 'f' rs = 0) (hs : scan P st rs = Except.ok st') :
    st'.disabled_filters_ss = st.disabled_filters_ss :=
  scan_frame P (fun s => s.disabled_filters_ss) 'f' (frame_disabled_filters_ss P) rs st st' hc hs

theorem scan_filters_fresh (P : Platform) (rs : List getopt_result) (st st' : scan_state)
    (hc : flag_count 'f' rs = 0) (hs : scan P st rs = Except.ok st') :
    st'.options.filters = st.options.filters :=
  scan_frame P (fun s => s.options.filters) 'f' (frame_filters P) rs st st' hc hs

end ariba

namespace ariba

/-! ## The checks after the scanning loop -/

theorem check_result (o : options_t) :
    (check_mandatory_arguments o).result =
      if o.chimeric_bam_file = "" then Except.error (Exit.usage "Missing mandatory option: -c")
      else if o.rna_bam_file = "" then Except.error (Exit.usage "Missing mandatory option: -x")
      else if o.gene_annotation_file = "" then
        Except.error (Exit.usage "Missing mandatory option: -g")
      else if o.exon_annotation_file = "" then
        Except.error (Exit.usage "Missing mandatory option: -e")
      else if o.output_file = "" then Except.error (Exit.usage "Missing mandatory option: -o")
      else if o.filters.find "mismappers" = some true ∧ o.assembly_file = "" then
        Except.error (Exit.usage "Filter 'mismappers' enabled, but missing option: -a")
      else if o.filters.find "blacklist" = some true ∧ o.blacklist_file = "" then
        Except.error (Exit.usage "Filter 'blacklist' enabled, but missing option: -b")
      else Except.ok
        { o with filters := ((o.filters.index "mismappers").2.index "blacklist").2 } := by
  have hm : ((o.filters.index "mismappers").1 = true) ↔ o.filters.find "mismappers" = some true := by
    rw [filters_t.index_fst]; simp
  have hb : (((o.filters.index "mismappers").2.index "blacklist").1 = true)
      ↔ o.filters.find "blacklist" = some true := by
    rw [filters_t.index_fst, filters_t.find_index]
    have : ¬ ("blacklist" = "mismappers") := by decide
    simp [this]
  unfold check_mandatory_arguments
  simp only [hm, hb]
  split_ifs <;> rfl

theorem check_cerr (o : options_t) :
    (check_mandatory_arguments o).cerr =
      if o.chimeric_bam_file = "" then []
      else if o.read_through_bam_file = "" then [missing_r_warning] else [] := by
  unfold check_mandatory_arguments
  split_ifs <;> simp_all

/-- A record that passes the checks is the scanned record, up to the entries that
reading `filters["mismappers"]` and `filters["blacklist"]` inserts when they are
missing. -/
theorem check_ok (o o' : options_t) (h : (check_mandatory_arguments o).result = Except.ok o') :
    o' = { o with filters := ((o.filters.index "mismappers").2.index "blacklist").2 } := by
  rw [check_result] at h
  split_ifs at h
  cases h
  rfl

theorem parse_arguments_ok (P : Platform) (argv : List String) (o : options_t)
    (h : (parse_arguments P argv).result = Except.ok o) :
    ∃ st, scan P (scan_init P) (getopt_calls P.posixly_correct optstring argv) = Except.ok st
      ∧ (check_mandatory_arguments st.options).result = Except.ok o := by
  unfold parse_arguments at h
  cases hs : scan P (scan_init P) (getopt_calls P.posixly_correct optstring argv) with
  | error e => rw [hs] at h; cases h
  | ok st => rw [hs] at h; exact ⟨st, rfl, h⟩

theorem parse_arguments_of_scan (P : Platform) (argv : List String) (st : scan_state)
    (h : scan P (scan_init P) (getopt_calls P.posixly_correct optstring argv) = Except.ok st) :
    parse_arguments P argv = check_mandatory_arguments st.options := by
  unfold parse_arguments
  rw [h]

theorem parse_arguments_of_scan_error (P : Platform) (argv : List String) (e : Exit)
    (h : scan P (scan_init P) (getopt_calls P.posixly_correct optstring argv) = Except.error e) :
    parse_arguments P argv = ⟨[], Except.error e⟩ := by
  unfold parse_arguments
  rw [h]

/-! ## The flag `-I` -/

theorem scan_print_supporting_reads (P : Platform) (rs : List getopt_result) :
    ∀ (st st' : scan_state), scan P st rs = Except.ok st' →
      st'.options.print_supporting_reads
        = (st.options.print_supporting_reads || decide (1 ≤ flag_count 'I' rs))
      ∧ st'.options.print_supporting_reads_for_discarded_fusions
        = (st.options.print_supporting_reads_for_discarded_fusions
            || (if st.options.print_supporting_reads then decide (1 ≤ flag_count 'I' rs)
                else decide (2 ≤ flag_count 'I' rs))) := by
  induction rs with
  | nil =>
    intro st st' hs
    cases hs
    simp [flag_count]
  | cons r rs ih =>
    intro st st' hs
    obtain ⟨st1, h1, h2⟩ := (scan_cons_ok P st st' r rs).mp hs
    obtain ⟨ih1, ih2⟩ := ih st1 st' h2
    cases r with
    | error optopt => exact absurd h1 (parse_option_error P st st1 optopt)
    | option d a =>
      by_cases hd : d = 'I'
      · subst hd
        have hc : flag_count 'I' (getopt_result.option 'I' a :: rs) = flag_count 'I' rs + 1 := by
          rw [flag_count_cons]; rfl
        rw [parse_option_upI] at h1
        split at h1
        · rename_i hp
          cases h1
          simp only at ih1 ih2
          rw [ih1, ih2, hc]
          have hp' : st.options.print_supporting_reads = false := by simpa using hp
          simp [hp']
        · rename_i hp
          cases h1
          simp only at ih1 ih2
          rw [ih1, ih2, hc]
          have hp' : st.options.print_supporting_reads = true := by simpa using hp
          simp [hp']
      · have hc : flag_count 'I' (getopt_result.option d a :: rs) = flag_count 'I' rs := by
          rw [flag_count_cons]; simp [getopt_result.is_flag, hd]
        rw [ih1, ih2, hc, frame_print_supporting_reads P st st1 d a hd h1,
          frame_print_supporting_reads_for_discarded_fusions P st st1 d a hd h1]
        exact ⟨rfl, rfl⟩

end ariba

/-! ## The filter map after the scan -/

theorem foldl_assign_false_find (names : List String) : ∀ (m : filters_t) (k : String),
    (names.foldl (fun m name => m.assign name false) m).find k
      = if k ∈ names then some false else m.find k := by
  induction names with
  | nil => intro m k; simp
  | cons n names ih =>
    intro m k
    rw [List.foldl_cons, ih, filters_t.find_assign]
    by_cases h1 : k ∈ names
    · simp [h1]
    · by_cases h2 : k = n
      · simp [h2]
      · simp [h1, h2]

theorem first_unknown_eq_none (m : filters_t) (names : List String) :
    first_unknown m names = none ↔ ∀ name ∈ names, m.find name ≠ none := by
  simp [first_unknown, List.find?_eq_none]

theorem flag_count_pos_split (c : Char) (rs : List getopt_result) (h : flag_count c rs ≠ 0) :
    ∃ pre v post, rs = pre ++ getopt_result.option c v :: post ∧ flag_count c pre = 0 := by
  induction rs with
  | nil => simp [flag_count] at h
  | cons r rs ih =>
    by_cases hr : r.is_flag c = true
    · cases r with
      | error _ => simp [getopt_result.is_flag] at hr
      | option d v =>
        have hd : d = c := by simpa [getopt_result.is_flag] using hr
        subst hd
        exact ⟨[], v, rs, rfl, rfl⟩
    · have h' : flag_count c rs ≠ 0 := by
        rw [flag_count_cons] at h
        simpa [hr] using h
      obtain ⟨pre, v, post, hrs, hpre⟩ := ih h'
      refine ⟨r :: pre, v, post, by rw [hrs]; rfl, ?_⟩
      rw [flag_count_cons, hpre]
      simp [hr]

theorem flag_count_eq_zero_iff (c : Char) (rs : List getopt_result) :
    flag_count c rs = 0 ↔ ∀ v, getopt_result.option c v ∉ rs := by
  constructor
  · intro h v hv
    have : 0 < flag_count c rs := by
      unfold flag_count
      rw [List.countP_pos_iff]
      exact ⟨_, hv, by simp [getopt_result.is_flag]⟩
    omega
  · intro h
    by_contra h0
    obtain ⟨pre, v, post, hrs, _⟩ := flag_count_pos_split c rs h0
    exact h v (by rw [hrs]; simp)

namespace ariba

theorem default_filters_find_eq (P : Platform) (k : String) :
    (get_default_options P).filters.find k = if k ∈ P.FILTERS then some true else none := by
  simp only [get_default_options]
  rw [default_filters_find]
  rfl

/-- Once `failbit` is set on the stream it stays set, and no later flag changes the
filter map. -/
theorem scan_after_failbit (P : Platform) (rs : List getopt_result) :
    ∀ (st st' : scan_state), st.disabled_filters_ss.failbit = true →
      scan P st rs = Except.ok st' →
      st'.options.filters = st.options.filters ∧ st'.disabled_filters_ss.failbit = true := by
  induction rs with
  | nil => intro st st' hf hs; cases hs; exact ⟨rfl, hf⟩
  | cons r rs ih =>
    intro st st' hf hs
    obtain ⟨st1, h1, h2⟩ := (scan_cons_ok P st st' r rs).mp hs
    cases r with
    | error optopt => exact absurd h1 (parse_option_error P st st1 optopt)
    | option d a =>
      have hstep : st1.options.filters = st.options.filters
          ∧ st1.disabled_filters_ss.failbit = true := by
        by_cases hd : d = 'f'
        · subst hd
          rw [parse_option_f_failed P st a hf] at h1
          cases h1
          exact ⟨rfl, hf⟩
        · rw [frame_filters P st st1 d a hd h1, frame_disabled_filters_ss P st st1 d a hd h1]
          exact ⟨rfl, hf⟩
      obtain ⟨ih1, ih2⟩ := ih st1 st' hstep.2 h2
      exact ⟨ih1.trans hstep.1, ih2⟩

/-- The filter map after a scan is decided by the first `-f` alone: all tokens of
its value are keys, they and the empty string are assigned `false`, and later
occurrences of `-f` change nothing. -/
theorem scan_first_f (P : Platform) (pre post : List getopt_result) (v : String)
    (st st' : scan_state) (hss : st.disabled_filters_ss = istringstream.init)
    (hpre : flag_count 'f' pre = 0)
    (hs : scan P st (pre ++ getopt_result.option 'f' v :: post) = Except.ok st') :
    first_unknown st.options.filters (tokens v) = none
      ∧ st'.options.filters
          = ((tokens v).foldl (fun m name => m.assign name false) st.options.filters).assign ""
              false
      ∧ st'.disabled_filters_ss.failbit = true := by
  rw [scan_append] at hs
  cases hp : scan P st pre with
  | error e => rw [hp] at hs; cases hs
  | ok st0 =>
    rw [hp] at hs
    simp only at hs
    have hss0 : st0.disabled_filters_ss = istringstream.init :=
      (scan_stream_fresh P pre st st0 hpre hp).trans hss
    have hf0 : st0.options.filters = st.options.filters := scan_filters_fresh P pre st st0 hpre hp
    obtain ⟨st1, h1, h2⟩ := (scan_cons_ok P st0 st' _ post).mp hs
    rw [parse_option_f_fresh P st0 v hss0] at h1
    cases hd : disable_names (tokens v) st0.options.filters with
    | error e => rw [hd] at h1; cases h1
    | ok m =>
      rw [hd] at h1
      cases h1
      obtain ⟨hu, hm⟩ := (disable_names_ok_iff _ _ _).mp hd
      obtain ⟨k1, k2⟩ := scan_after_failbit P post _ st' rfl h2
      rw [hf0] at hu hm
      refine ⟨hu, ?_, k2⟩
      rw [k1, hm]

end ariba

namespace ariba

/-- A registered filter that no `-f` names is enabled after the scan. -/
theorem scan_filter_enabled (P : Platform) (rs : List getopt_result) (st : scan_state)
    (k : String) (hk : k ∈ P.FILTERS) (hne : k ≠ "")
    (hs : scan P (scan_init P) rs = Except.ok st)
    (hf : ∀ v, getopt_result.option 'f' v ∈ rs → k ∉ tokens v) :
    st.options.filters.find k = some true := by
  have hdef : (scan_init P).options.filters.find k = some true := by
    simp only [scan_init]
    rw [default_filters_find_eq, if_pos hk]
  by_cases hc : flag_count 'f' rs = 0
  · rw [scan_filters_fresh P rs _ st hc hs]
    exact hdef
  · obtain ⟨pre, v, post, hrs, hpre⟩ := flag_count_pos_split 'f' rs hc
    subst hrs
    obtain ⟨_, h2, _⟩ := scan_first_f P pre post v _ st rfl hpre hs
    have hkv : k ∉ tokens v := hf v (by simp)
    rw [h2, filters_t.find_assign, if_neg hne, foldl_assign_false_find, if_neg hkv]
    exact hdef

/-- A filter named by the first `-f` is disabled after the scan. -/
theorem scan_filter_disabled (P : Platform) (pre post : List getopt_result) (v : String)
    (st : scan_state) (k : String) (hpre : flag_count 'f' pre = 0) (hk : k ∈ tokens v)
    (hs : scan P (scan_init P) (pre ++ getopt_result.option 'f' v :: post) = Except.ok st) :
    st.options.filters.find k = some false := by
  obtain ⟨_, h2, _⟩ := scan_first_f P pre post v _ st rfl hpre hs
  rw [h2, filters_t.find_assign, foldl_assign_false_find, if_pos hk]
  simp

theorem scan_assembly_file (P : Platform) (rs : List getopt_result) (st st' : scan_state)
    (hc : flag_count 'a' rs = 0) (hs : scan P st rs = Except.ok st') :
    st'.options.assembly_file = st.options.assembly_file :=
  scan_frame P (fun s => s.options.assembly_file) 'a' (frame_assembly_file P) rs st st' hc hs

end ariba


namespace ariba

/-! ## The flag `-r` does not interact with the other flags -/

/-- The same state with another read-through path. -/
theorem parse_option_with_r (P : Platform) (st : scan_state) (p : String) (r : getopt_result)
    (hr : r.is_flag 'r' = false) :
    parse_option P { st with options.read_through_bam_file := p } r
      = match parse_option P st r with
        | Except.error e => Except.error e
        | Except.ok st' => Except.ok { st' with options.read_through_bam_file := p } := by
  cases r with
  | error c =>
    have h1 : ∀ s : scan_state, parse_option P s (getopt_result.error c)
        = parse_option P st (getopt_result.error c) := fun _ => rfl
    rw [h1]
    cases h : parse_option P st (getopt_result.error c) with
    | error e => rfl
    | ok st' => exact absurd h (parse_option_error P st st' c)
  | option d a =>
    by_cases hd : d ∈ ['c', 'r', 'x', 'g', 'e', 'o', 'O', 'a', 'b', 'k', 'i', 'f', 'E', 's', 'l', 'm', 'H', 'D', 'A', 'K', 'I']
    · simp only [List.mem_cons, List.mem_singleton, List.not_mem_nil, or_false] at hd
      rcases hd with rfl | rfl | rfl | rfl | rfl | rfl | rfl | rfl | rfl | rfl | rfl | rfl | rfl | rfl | rfl | rfl | rfl | rfl | rfl | rfl | rfl
      · rw [parse_option_c, parse_option_c]
        split <;> rfl
      · simp [getopt_result.is_flag] at hr
      · rw [parse_option_x, parse_option_x]
        split
        · split <;> rfl
        · rfl
      · rw [parse_option_g, parse_option_g]
        split <;> rfl
      · rw [parse_option_e, parse_option_e]
        split <;> rfl
      · rfl
      · rfl
      · rw [parse_option_a, parse_option_a]
        split
        · split <;> rfl
        · rfl
      · rw [parse_option_b, parse_option_b]
        split <;> rfl
      · rw [parse_option_k, parse_option_k]
        split <;> rfl
      · rfl
      · rw [parse_option_f, parse_option_f]
        simp only
        split <;> rfl
      · rfl
      · rfl
      · rfl
      · rw [parse_option_m, parse_option_m]
        split <;> rfl
      · rfl
      · rfl
      · rfl
      · rfl
      · rw [parse_option_upI, parse_option_upI]
        split <;> rfl
    · rw [parse_option_default P _ d a hd, parse_option_default P st d a hd]

theorem scan_with_r (P : Platform) (p : String) (rs : List getopt_result) :
    ∀ (st : scan_state), flag_count 'r' rs = 0 →
    scan P { st with options.read_through_bam_file := p } rs
      = match scan P st rs with
        | Except.error e => Except.error e
        | Except.ok st' => Except.ok { st' with options.read_through_bam_file := p } := by
  induction rs with
  | nil => intro st _; rfl
  | cons r rs ih =>
    intro st hc
    rw [flag_count_cons] at hc
    have hr : r.is_flag 'r' = false := by
      cases h : r.is_flag 'r' with
      | false => rfl
      | true => simp [h] at hc
    rw [scan, scan, parse_option_with_r P st p r hr]
    cases parse_option P st r with
    | error e => rfl
    | ok st1 => exact ih st1 (by omega)

theorem scan_read_through_bam_file (P : Platform) (rs : List getopt_result)
    (st st' : scan_state) (hc : flag_count 'r' rs = 0) (hs : scan P st rs = Except.ok st') :
    st'.options.read_through_bam_file = st.options.read_through_bam_file :=
  scan_frame P (fun s => s.options.read_through_bam_file) 'r' (frame_read_through_bam_file P)
    rs st st' hc hs

end ariba

theorem FVal.outside_of_outside_unit_interval (v : FVal) (h : v.outside_unit_interval) :
    (v.lt_zero || v.gt_one) = true := by
  cases v with
  | fin q =>
    rcases h with h | h
    · simp [FVal.lt_zero, h]
    · simp [FVal.gt_one, h]
  | nan => exact absurd h id
  | ninf => rfl
  | pinf => rfl

theorem FVal.not_outside_of_in_unit_interval (v : FVal) (h : v.in_unit_interval) :
    (v.lt_zero || v.gt_one) = false := by
  cases v with
  | fin q =>
    obtain ⟨h0, h1⟩ := h
    simp [FVal.lt_zero, FVal.gt_one, h0, h1]
  | nan => exact absurd h id
  | ninf => exact absurd h id
  | pinf => exact absurd h id

theorem mem_f_names (rs : List getopt_result) (v : String) (k : String)
    (hv : getopt_result.option 'f' v ∈ rs) (hk : k ∈ tokens v) : k ∈ f_names rs := by
  induction rs with
  | nil => cases hv
  | cons r rs ih =>
    rcases List.mem_cons.mp hv with h | h
    · subst h
      simp [f_names, hk]
    · cases r with
      | error c => simpa [f_names] using ih h
      | option c w =>
        by_cases hc : c = 'f'
        · simp [f_names, hc, ih h]
        · simpa [f_names, hc] using ih h

namespace ariba

theorem Run.eq_mk (r : Run) (c : List String) (x : Except Exit options_t)
    (h1 : r.cerr = c) (h2 : r.result = x) : r = ⟨c, x⟩ := by
  cases r
  simp only at h1 h2
  rw [h1, h2]

/-- After a scan in which `-r` occurs, the read-through path is one that `access`
accepted. -/
theorem scan_r_supplied (P : Platform) (rs : List getopt_result) :
    ∀ (st st' : scan_state), scan P st rs = Except.ok st' →
      (flag_count 'r' rs ≠ 0 ∨ P.access st.options.read_through_bam_file = true) →
      P.access st'.options.read_through_bam_file = true := by
  induction rs with
  | nil =>
    intro st st' hs h
    cases hs
    rcases h with h | h
    · exact absurd rfl h
    · exact h
  | cons r rs ih =>
    intro st st' hs h
    obtain ⟨st1, h1, h2⟩ := (scan_cons_ok P st st' r rs).mp hs
    cases r with
    | error optopt => exact absurd h1 (parse_option_error P st st1 optopt)
    | option d a =>
      by_cases hd : d = 'r'
      · subst hd
        rw [parse_option_r] at h1
        split at h1
        · rename_i hacc
          cases h1
          exact ih _ st' h2 (Or.inr hacc)
        · cases h1
      · apply ih st1 st' h2
        rw [frame_read_through_bam_file P st st1 d a hd h1]
        rcases h with h | h
        · left
          rw [flag_count_cons] at h
          simpa [getopt_result.is_flag, hd] using h
        · exact Or.inr h

/-- The checks do not look at the read-through path, except for the warning. -/
theorem check_result_with_r (o : options_t) (p : String) :
    (check_mandatory_arguments { o with read_through_bam_file := p }).result
      = match (check_mandatory_arguments o).result with
        | Except.error e => Except.error e
        | Except.ok o' => Except.ok { o' with read_through_bam_file := p } := by
  rw [check_result, check_result]
  simp only
  split_ifs <;> rfl

/-- Taking one `-r` out of a scan that goes through: the scan still goes through, to the
same state with an empty read-through path. -/
theorem scan_without_r (P : Platform) (pre post : List getopt_result) (p : String)
    (st_r : scan_state) (hpre : flag_count 'r' pre = 0) (hpost : flag_count 'r' post = 0)
    (hs : scan P (scan_init P) (pre ++ getopt_result.option 'r' p :: post) = Except.ok st_r) :
    ∃ st, scan P (scan_init P) (pre ++ post) = Except.ok st
      ∧ st.options.read_through_bam_file = ""
      ∧ st_r = { st with options.read_through_bam_file := p } := by
  rw [scan_append] at hs
  cases h0 : scan P (scan_init P) pre with
  | error e => rw [h0] at hs; cases hs
  | ok st1 =>
    rw [h0] at hs
    simp only at hs
    obtain ⟨st2, h1, h2⟩ := (scan_cons_ok P st1 st_r _ post).mp hs
    rw [parse_option_r] at h1
    split at h1
    · cases h1
      rw [scan_with_r P p post st1 hpost] at h2
      cases h3 : scan P st1 post with
      | error e => rw [h3] at h2; cases h2
      | ok st =>
        rw [h3] at h2
        cases h2
        refine ⟨st, ?_, ?_, rfl⟩
        · rw [scan_append, h0]
          exact h3
        · rw [scan_read_through_bam_file P post st1 st hpost h3,
            scan_read_through_bam_file P pre _ st1 hpre h0]
          rfl
    · cases h1

end ariba

namespace extract_read_through_fusions

theorem companion_parse_option_error (P : Platform) (o o' : options_t) (c : Char) :
    parse_option P o (getopt_result.error c) ≠ Except.ok o' := by
  rw [parse_option]
  split <;> exact fun h => Except.noConfusion h

/-- What a successful pass through the `switch` of the companion tool did. -/
theorem companion_parse_option_ok (P : Platform) (o o' : options_t) (d : Char) (a : String)
    (hs : parse_option P o (getopt_result.option d a) = Except.ok o') :
    (d = 'i' ∧ o' = { o with input_bam_file := a })
    ∨ (d = 'o' ∧ o' = { o with output_bam_file := a })
    ∨ (d = 'g' ∧ o' = { o with gene_annotation_file := a })
    ∨ (d = 'G' ∧ o' = { o with gtf_features := a })
    ∨ (d = '1' ∧ o' = { o with single_end := true }) := by
  rw [parse_option] at hs
  split_ifs at hs with h1 h2 h3 h4 h5 h6 h7 h8 h9
  all_goals first
    | (cases hs; done)
    | (cases hs; exact Or.inl ⟨‹_›, rfl⟩)
    | (cases hs; exact Or.inr (Or.inl ⟨‹_›, rfl⟩))
    | (cases hs; exact Or.inr (Or.inr (Or.inl ⟨‹_›, rfl⟩)))
    | (cases hs; exact Or.inr (Or.inr (Or.inr (Or.inl ⟨‹_›, rfl⟩))))
    | (cases hs; exact Or.inr (Or.inr (Or.inr (Or.inr ⟨‹_›, rfl⟩))))

theorem companion_scan_cons_ok (P : Platform) (o o' : options_t) (r : getopt_result)
    (rs : List getopt_result) :
    scan P o (r :: rs) = Except.ok o' ↔
      ∃ o1, parse_option P o r = Except.ok o1 ∧ scan P o1 rs = Except.ok o' := by
  rw [scan]
  cases h : parse_option P o r with
  | error e => simp
  | ok o1 => simp

/-- A field that only the flag `-c` changes is the same before and after a scan in
which `-c` does not occur. -/
theorem companion_scan_frame {β : Type} (P : Platform) (g : options_t → β) (c : Char)
    (hstep : ∀ o o' d a, d ≠ c →
      parse_option P o (getopt_result.option d a) = Except.ok o' → g o' = g o)
    (rs : List getopt_result) : ∀ (o o' : options_t),
    flag_count c rs = 0 → scan P o rs = Except.ok o' → g o' = g o := by
  induction rs with
  | nil =>
    intro o o' _ hs
    cases hs
    rfl
  | cons r rs ih =>
    intro o o' hc hs
    obtain ⟨o1, h1, h2⟩ := (companion_scan_cons_ok P o o' r rs).mp hs
    rw [flag_count_cons] at hc
    cases r with
    | error optopt => exact absurd h1 (companion_parse_option_error P o o1 optopt)
    | option d a =>
      have hd : d ≠ c := by
        intro h
        simp [getopt_result.is_flag, h] at hc
      rw [ih o1 o' (by omega) h2, hstep o o1 d a hd h1]

theorem companion_frame_input_bam_file (P : Platform) (o o' : options_t) (d : Char) (a : String)
    (h : d ≠ 'i') (hs : parse_option P o (getopt_result.option d a) = Except.ok o') :
    o'.input_bam_file = o.input_bam_file := by
  rcases companion_parse_option_ok P o o' d a hs with
    ⟨rfl, rfl⟩ | ⟨rfl, rfl⟩ | ⟨rfl, rfl⟩ | ⟨rfl, rfl⟩ | ⟨rfl, rfl⟩
  all_goals first | rfl | exact absurd rfl h

theorem companion_frame_output_bam_file (P : Platform) (o o' : options_t) (d : Char) (a : String)
    (h : d ≠ 'o') (hs : parse_option P o (getopt_result.option d a) = Except.ok o') :
    o'.output_bam_file = o.output_bam_file := by
  rcases companion_parse_option_ok P o o' d a hs with
    ⟨rfl, rfl⟩ | ⟨rfl, rfl⟩ | ⟨rfl, rfl⟩ | ⟨rfl, rfl⟩ | ⟨rfl, rfl⟩
  all_goals first | rfl | exact absurd rfl h

theorem companion_frame_gene_annotation_file (P : Platform) (o o' : options_t) (d : Char) (a : String)
    (h : d ≠ 'g') (hs : parse_option P o (getopt_result.option d a) = Except.ok o') :
    o'.gene_annotation_file = o.gene_annotation_file := by
  rcases companion_parse_option_ok P o o' d a hs with
    ⟨rfl, rfl⟩ | ⟨rfl, rfl⟩ | ⟨rfl, rfl⟩ | ⟨rfl, rfl⟩ | ⟨rfl, rfl⟩
  all_goals first | rfl | exact absurd rfl h

theorem companion_frame_gtf_features (P : Platform) (o o' : options_t) (d : Char) (a : String)
    (h : d ≠ 'G') (hs : parse_option P o (getopt_result.option d a) = Except.ok o') :
    o'.gtf_features = o.gtf_features := by
  rcases companion_parse_option_ok P o o' d a hs with
    ⟨rfl, rfl⟩ | ⟨rfl, rfl⟩ | ⟨rfl, rfl⟩ | ⟨rfl, rfl⟩ | ⟨rfl, rfl⟩
  all_goals first | rfl | exact absurd rfl h

theorem companion_frame_single_end (P : Platform) (o o' : options_t) (d : Char) (a : String)
    (h : d ≠ '1') (hs : parse_option P o (getopt_result.option d a) = Except.ok o') :
    o'.single_end = o.single_end := by
  rcases companion_parse_option_ok P o o' d a hs with
    ⟨rfl, rfl⟩ | ⟨rfl, rfl⟩ | ⟨rfl, rfl⟩ | ⟨rfl, rfl⟩ | ⟨rfl, rfl⟩
  all_goals first | rfl | exact absurd rfl h

theorem companion_parse_arguments_ok (P : Platform) (argv : List String) (o : options_t)
    (h : parse_arguments P argv = Except.ok o) :
    scan P (get_default_options P) (getopt_calls P.posixly_correct optstring argv)
      = Except.ok o := by
  unfold parse_arguments at h
  cases hs : scan P (get_default_options P) (getopt_calls P.posixly_correct optstring argv) with
  | error e => rw [hs] at h; cases h
  | ok o1 =>
    rw [hs] at h
    simp only [check_mandatory_arguments] at h
    split_ifs at h
    cases h
    rfl

end extract_read_through_fusions

theorem filters_t.find_index_of_some (m : filters_t) (k k' : String) (v : Bool)
    (h : m.find k' = some v) : (m.index k).2.find k' = some v := by
  rw [filters_t.find_index]
  split_ifs with h1
  · obtain ⟨rfl, h2⟩ := h1
    rw [h2] at h
    cases h
  · exact h

namespace ariba

/-- Every run of `-f` that goes through leaves the empty string as a key of the filter
map, with value false. -/
theorem find_empty_after_f (P : Platform) (argv : List String) (o : options_t)
    (h : (parse_arguments P argv).result = Except.ok o)
    (hf : flag_count 'f' (getopt_calls P.posixly_correct optstring argv) ≠ 0) :
    o.filters.find "" = some false := by
  obtain ⟨st, hs, hc⟩ := parse_arguments_ok P argv o h
  have ho := check_ok st.options o hc
  obtain ⟨pre, v, post, hrs, hpre⟩ := flag_count_pos_split 'f' _ hf
  rw [hrs] at hs
  obtain ⟨_, h2, _⟩ := scan_first_f P pre post v _ st rfl hpre hs
  have h3 : st.options.filters.find "" = some false := by
    rw [h2, filters_t.find_assign, if_pos rfl]
  subst ho
  exact filters_t.find_index_of_some _ _ _ _ (filters_t.find_index_of_some _ _ _ _ h3)

/-- Without `-f`, the filter map that is returned has every registered filter enabled,
and is the default map when `mismappers` and `blacklist` are registered. -/
theorem filters_without_f (P : Platform) (argv : List String) (o : options_t)
    (h : (parse_arguments P argv).result = Except.ok o)
    (hf : flag_count 'f' (getopt_calls P.posixly_correct optstring argv) = 0) :
    (∀ name ∈ P.FILTERS, o.filters.find name = some true)
    ∧ ("mismappers" ∈ P.FILTERS → "blacklist" ∈ P.FILTERS →
        o.filters = (get_default_options P).filters) := by
  obtain ⟨st, hs, hc⟩ := parse_arguments_ok P argv o h
  have ho := check_ok st.options o hc
  have hfil : st.options.filters = (get_default_options P).filters :=
    scan_filters_fresh P _ _ st hf hs
  subst ho
  simp only
  rw [hfil]
  constructor
  · intro name hn
    apply filters_t.find_index_of_some
    apply filters_t.find_index_of_some
    rw [default_filters_find_eq, if_pos hn]
  · intro hm hb
    rw [filters_t.index_of_find _ "mismappers" true
      (by rw [default_filters_find_eq, if_pos hm])]
    simp only
    rw [filters_t.index_of_find _ "blacklist" true
      (by rw [default_filters_find_eq, if_pos hb])]

end ariba

/-! ## A flag that occurs once -/

theorem flag_count_one_split (c : Char) (v : String) (rs : List getopt_result)
    (hmem : getopt_result.option c v ∈ rs) (hone : flag_count c rs = 1) :
    ∃ pre post, rs = pre ++ getopt_result.option c v :: post
      ∧ flag_count c pre = 0 ∧ flag_count c post = 0 := by
  obtain ⟨pre, post, hrs⟩ := List.append_of_mem hmem
  refine ⟨pre, post, hrs, ?_⟩
  rw [hrs, flag_count_append, flag_count_cons] at hone
  simp only [getopt_result.is_flag, decide_True, if_true] at hone
  omega

theorem replace_commas_length (s : String) :
    (replace_commas s).data.length = s.data.length := by
  simp [replace_commas]

theorem replace_commas_no_comma (s : String) : ',' ∉ (replace_commas s).data := by
  simp only [replace_commas, List.mem_map, not_exists, not_and]
  intro c _
  by_cases h : c = ','
  · simp [h]
  · simp [h]

theorem replace_commas_get (s : String) (i : Nat) (hi : i < s.data.length) :
    (replace_commas s).data[i]? = some (if s.data[i] = ',' then ' ' else s.data[i]) := by
  simp [replace_commas, List.getElem?_map, List.getElem?_eq_getElem hi]

namespace ariba

/-- The field a flag writes has, after the scan, the value of the last occurrence of the
flag. -/
theorem scan_last_write {β : Type} (P : Platform) (g : scan_state → β) (c : Char)
    (val : String → β)
    (hset : ∀ st st' v, parse_option P st (getopt_result.option c v) = Except.ok st' →
      g st' = val v)
    (hframe : ∀ st st' d a, d ≠ c →
      parse_option P st (getopt_result.option d a) = Except.ok st' → g st' = g st)
    (pre post : List getopt_result) (v : String) (st st' : scan_state)
    (hpost : flag_count c post = 0)
    (hs : scan P st (pre ++ getopt_result.option c v :: post) = Except.ok st') :
    g st' = val v := by
  rw [scan_append] at hs
  cases h0 : scan P st pre with
  | error e => rw [h0] at hs; cases hs
  | ok st1 =>
    rw [h0] at hs
    simp only at hs
    obtain ⟨st2, h1, h2⟩ := (scan_cons_ok P st1 st' _ post).mp hs
    rw [scan_frame P g c hframe post st2 st' hpost h2]
    exact hset st1 st2 v h1

end ariba

namespace ariba

theorem set_chimeric_bam_file (P : Platform) (st st' : scan_state) (v : String)
    (hs : parse_option P st (getopt_result.option 'c' v) = Except.ok st') :
    st'.options.chimeric_bam_file = v := by
  rw [parse_option_c] at hs
  split at hs
  · cases hs; rfl
  · cases hs

theorem set_read_through_bam_file (P : Platform) (st st' : scan_state) (v : String)
    (hs : parse_option P st (getopt_result.option 'r' v) = Except.ok st') :
    st'.options.read_through_bam_file = v := by
  rw [parse_option_r] at hs
  split at hs
  · cases hs; rfl
  · cases hs

theorem set_rna_bam_file (P : Platform) (st st' : scan_state) (v : String)
    (hs : parse_option P st (getopt_result.option 'x' v) = Except.ok st') :
    st'.options.rna_bam_file = v := by
  rw [parse_option_x] at hs
  split at hs
  · split at hs
    · cases hs; rfl
    · cases hs
  · cases hs

theorem set_gene_annotation_file (P : Platform) (st st' : scan_state) (v : String)
    (hs : parse_option P st (getopt_result.option 'g' v) = Except.ok st') :
    st'.options.gene_annotation_file = v := by
  rw [parse_option_g] at hs
  split at hs
  · cases hs; rfl
  · cases hs

theorem set_exon_annotation_file (P : Platform) (st st' : scan_state) (v : String)
    (hs : parse_option P st (getopt_result.option 'e' v) = Except.ok st') :
    st'.options.exon_annotation_file = v := by
  rw [parse_option_e] at hs
  split at hs
  · cases hs; rfl
  · cases hs

theorem set_output_file (P : Platform) (st st' : scan_state) (v : String)
    (hs : parse_option P st (getopt_result.option 'o' v) = Except.ok st') :
    st'.options.output_file = v := by
  rw [parse_option_o] at hs
  cases hs
  rfl

theorem set_discarded_output_file (P : Platform) (st st' : scan_state) (v : String)
    (hs : parse_option P st (getopt_result.option 'O' v) = Except.ok st') :
    st'.options.discarded_output_file = v := by
  rw [parse_option_upO] at hs
  cases hs
  rfl

theorem set_assembly_file (P : Platform) (st st' : scan_state) (v : String)
    (hs : parse_option P st (getopt_result.option 'a' v) = Except.ok st') :
    st'.options.assembly_file = v := by
  rw [parse_option_a] at hs
  split at hs
  · split at hs
    · cases hs; rfl
    · cases hs
  · cases hs

theorem set_blacklist_file (P : Platform) (st st' : scan_state) (v : String)
    (hs : parse_option P st (getopt_result.option 'b' v) = Except.ok st') :
    st'.options.blacklist_file = v := by
  rw [parse_option_b] at hs
  split at hs
  · cases hs; rfl
  · cases hs

theorem set_known_fusions_file (P : Platform) (st st' : scan_state) (v : String)
    (hs : parse_option P st (getopt_result.option 'k' v) = Except.ok st') :
    st'.options.known_fusions_file = v := by
  rw [parse_option_k] at hs
  split at hs
  · cases hs; rfl
  · cases hs

theorem set_interesting_contigs (P : Platform) (st st' : scan_state) (v : String)
    (hs : parse_option P st (getopt_result.option 'i' v) = Except.ok st') :
    st'.options.interesting_contigs = replace_commas v := by
  rw [parse_option_i] at hs
  cases hs
  rfl

theorem set_evalue_cutoff (P : Platform) (st st' : scan_state) (v : String)
    (hs : parse_option P st (getopt_result.option 'E' v) = Except.ok st') :
    st'.options.evalue_cutoff = P.atof v := by
  rw [parse_option_upE] at hs
  cases hs
  rfl

theorem set_max_kmer_content (P : Platform) (st st' : scan_state) (v : String)
    (hs : parse_option P st (getopt_result.option 'K' v) = Except.ok st') :
    st'.options.max_kmer_content = P.atof v := by
  rw [parse_option_upK] at hs
  cases hs
  rfl

theorem set_max_mismapper_fraction (P : Platform) (st st' : scan_state) (v : String)
    (hs : parse_option P st (getopt_result.option 'm' v) = Except.ok st') :
    st'.options.max_mismapper_fraction = P.atof v := by
  rw [parse_option_m] at hs
  split at hs
  · cases hs
  · cases hs; rfl

theorem set_min_support (P : Platform) (st st' : scan_state) (v : String)
    (hs : parse_option P st (getopt_result.option 's' v) = Except.ok st') :
    st'.options.min_support = P.atoi v := by
  rw [parse_option_s] at hs
  cases hs
  rfl

theorem set_homopolymer_length (P : Platform) (st st' : scan_state) (v : String)
    (hs : parse_option P st (getopt_result.option 'H' v) = Except.ok st') :
    st'.options.homopolymer_length = P.atoi v := by
  rw [parse_option_upH] at hs
  cases hs
  rfl

theorem set_min_read_through_distance (P : Platform) (st st' : scan_state) (v : String)
    (hs : parse_option P st (getopt_result.option 'D' v) = Except.ok st') :
    st'.options.min_read_through_distance = P.atoi v := by
  rw [parse_option_upD] at hs
  cases hs
  rfl

theorem set_min_anchor_length (P : Platform) (st st' : scan_state) (v : String)
    (hs : parse_option P st (getopt_result.option 'A' v) = Except.ok st') :
    st'.options.min_anchor_length = P.atoi v := by
  rw [parse_option_upA] at hs
  cases hs
  rfl

theorem set_low_tumor_content (P : Platform) (st st' : scan_state) (v : String)
    (hs : parse_option P st (getopt_result.option 'l' v) = Except.ok st') :
    st'.options.low_tumor_content = true := by
  rw [parse_option_l] at hs
  cases hs
  rfl

end ariba

/-! ## The help text for `-f` -/

theorem filters_t.assign_of_not_mem (m : filters_t) (k : String) (v : Bool)
    (h : k ∉ m.keys) : m.assign k v = m ++ [(k, v)] := by
  induction m with
  | nil => rfl
  | cons e m ih =>
    obtain ⟨k0, v0⟩ := e
    have h0 : ¬ k0 = k := by
      intro h1
      exact h (by simp [filters_t.keys, h1])
    have h1 : k ∉ filters_t.keys m := by
      intro h2
      exact h (by simp only [filters_t.keys, List.map_cons, List.mem_cons]; exact Or.inr h2)
    rw [filters_t.assign, if_neg h0, ih h1]
    rfl

theorem default_filters_of_nodup (names : List String) : ∀ (m : filters_t),
    names.Nodup → (∀ n ∈ names, n ∉ m.keys) →
    names.foldl (fun m name => m.assign name true) m = m ++ names.map (fun n => (n, true)) := by
  induction names with
  | nil => intro m _ _; simp
  | cons n names ih =>
    intro m hnd hdis
    rw [List.nodup_cons] at hnd
    rw [List.foldl_cons, filters_t.assign_of_not_mem m n true (hdis n (List.mem_cons_self _ _)),
      ih _ hnd.2]
    · simp
    · intro k hk
      simp only [filters_t.keys, List.map_append, List.map_cons, List.map_nil, List.mem_append,
        List.mem_singleton, not_or]
      refine ⟨hdis k (List.mem_cons_of_mem _ hk), ?_⟩
      intro h
      exact hnd.1 (h ▸ hk)

namespace ariba

theorem valid_filters_loop_eq_go (m : filters_t) : ∀ (acc : String),
    valid_filters_loop m false acc = String.intercalate.go acc ", " m.keys := by
  induction m with
  | nil => intro acc; rfl
  | cons e m ih =>
    intro acc
    obtain ⟨n, b⟩ := e
    simp only [valid_filters_loop, filters_t.keys, List.map_cons, String.intercalate.go]
    exact ih _

theorem valid_filters_loop_eq (m : filters_t) :
    valid_filters_loop m true "" = ", ".intercalate m.keys := by
  cases m with
  | nil => rfl
  | cons e m =>
    obtain ⟨n, b⟩ := e
    simp only [valid_filters_loop, filters_t.keys, List.map_cons, String.intercalate, if_true]
    rw [valid_filters_loop_eq_go]
    have : ("" : String) ++ n = n := by
      apply String.ext
      simp
    rw [this]
    rfl

theorem default_filters_keys (P : Platform) (h : P.FILTERS.Nodup) :
    (get_default_options P).filters.keys = P.FILTERS := by
  simp only [get_default_options]
  rw [default_filters_of_nodup P.FILTERS [] h (by intro n _ hn; cases hn)]
  simp only [filters_t.keys, List.nil_append, List.map_map]
  exact List.map_id _

end ariba

/-! ## The first `-f` -/

/-- When scanning reaches the first `-f` of the argument list and its value has a
token that is no key of the filter map, the run terminates through `print_usage` with
`Invalid argument to option -f: ` followed by the first such token, whatever comes after
that `-f`; no record is returned. -/
theorem first_f_invalid_name_terminates (P : Platform) (argv : List String)
    (pre post : List getopt_result) (v : String) (st : ariba.scan_state) (t : String)
    (hcalls : getopt_calls P.posixly_correct ariba.optstring argv
      = pre ++ getopt_result.option 'f' v :: post)
    (hfirst : flag_count 'f' pre = 0)
    (hpre : ariba.scan P (ariba.scan_init P) pre = Except.ok st)
    (ht : first_unknown st.options.filters (tokens v) = some t) :
    ariba.parse_arguments P argv
      = ⟨[], Except.error (Exit.usage ("Invalid argument to option -f: " ++ t))⟩ := by
  apply ariba.parse_arguments_of_scan_error
  rw [hcalls, ariba.scan_append, hpre]
  have hss : st.disabled_filters_ss = istringstream.init :=
    ariba.scan_stream_fresh P pre _ st hfirst hpre
  apply ariba.scan_cons_error
  rw [ariba.parse_option_f_fresh P st v hss, disable_names_of_first_unknown _ _ t ht]

/-- With `mismappers` registered, for an argument list whose scan goes through, that
supplies `-c`, `-x`, `-g`, `-e` and `-o`, meets the `blacklist` requirement and has no
`-a`: (1) if no `-f` names `mismappers`, the run terminates with
`Filter 'mismappers' enabled, but missing option: -a`; (2) if the first `-f` names
`mismappers`, the run returns a record, and its assembly path is empty. -/
theorem mismappers_requires_assembly_first_f (P : Platform) (argv : List String)
    (st : ariba.scan_state) (hreg : "mismappers" ∈ P.FILTERS)
    (hs : ariba.scan P (ariba.scan_init P) (getopt_calls P.posixly_correct ariba.optstring argv)
      = Except.ok st)
    (hc : st.options.chimeric_bam_file ≠ "") (hx : st.options.rna_bam_file ≠ "")
    (hg : st.options.gene_annotation_file ≠ "") (he : st.options.exon_annotation_file ≠ "")
    (ho : st.options.output_file ≠ "")
    (hb : st.options.filters.find "blacklist" = some true → st.options.blacklist_file ≠ "")
    (ha : flag_count 'a' (getopt_calls P.posixly_correct ariba.optstring argv) = 0) :
    ("mismappers" ∉ f_names (getopt_calls P.posixly_correct ariba.optstring argv) →
        (ariba.parse_arguments P argv).result
          = Except.error (Exit.usage "Filter 'mismappers' enabled, but missing option: -a"))
    ∧ (∀ pre v post,
        getopt_calls P.posixly_correct ariba.optstring argv
          = pre ++ getopt_result.option 'f' v :: post →
        flag_count 'f' pre = 0 → "mismappers" ∈ tokens v →
        ∃ o, (ariba.parse_arguments P argv).result = Except.ok o ∧ o.assembly_file = "") := by
  have hasm : st.options.assembly_file = "" :=
    ariba.scan_assembly_file P _ _ st ha hs
  rw [ariba.parse_arguments_of_scan P argv st hs, ariba.check_result]
  simp only [hc, hx, hg, he, ho, if_false]
  constructor
  · intro hf
    have hm := ariba.scan_filter_enabled P _ st "mismappers" hreg (by decide) hs
      (fun v hv hk => hf (mem_f_names _ v _ hv hk))
    simp [hm, hasm]
  · intro pre v post hcalls hpre hk
    rw [hcalls] at hs
    have hm := ariba.scan_filter_disabled P pre post v st "mismappers" hpre hk hs
    have hb' : ¬ (st.options.filters.find "blacklist" = some true
        ∧ st.options.blacklist_file = "") := fun h => hb h.1 h.2
    simp only [hm, hb', if_false]
    exact ⟨_, rfl, hasm⟩

/-! # The claims -/

/-- C1 (defect): with the filters `mismappers`, `blacklist` and `min_support` registered, the
run on `-f "mismappers,,blacklist  min_support"` succeeds, every token of the value is
registered and disabled, and yet the filter map of the returned record has a further
entry whose value is false: the empty name, which is no token of the value. The last
pass through the loop of `case 'f'` extracts nothing and assigns `filters[""] = false`. -/
theorem C1_empty_name_disabled :
    ∃ o, (ariba.parse_arguments example_platform
        ["ariba", "-c", "chimeric.bam", "-x", "rna.bam", "-g", "genes.bed", "-e", "exons.bed",
         "-o", "fusions.out", "-f", "mismappers,,blacklist  min_support"]).result = Except.ok o
      ∧ tokens "mismappers,,blacklist  min_support" = ["mismappers", "blacklist", "min_support"]
      ∧ o.filters = [("mismappers", false), ("blacklist", false), ("min_support", false),
          ("", false)]
      ∧ "" ∉ tokens "mismappers,,blacklist  min_support" :=
  ⟨_, rfl, by decide, rfl, by decide⟩

/-- C2 (defect): an unregistered name in a `-f` that is not the first one is not
reported. On `-f min_support -f "mismappers,bogus"` the value of the second `-f` has the
token `bogus`, which is no key of the filter map, and yet `parse_arguments` returns a
record instead of terminating with `Invalid argument to option -f: bogus`; `mismappers`
stays enabled. The stream of `case 'f'` still has `failbit` set from the first `-f`, so
the loop that looks the tokens up is not entered. -/
theorem C2_later_f_not_checked :
    first_unknown (ariba.get_default_options example_platform).filters
        (tokens "mismappers,bogus") = some "bogus"
    ∧ ∃ o, ariba.parse_arguments example_platform
        ["ariba", "-c", "chimeric.bam", "-x", "rna.bam", "-g", "genes.bed", "-e", "exons.bed",
         "-o", "fusions.out", "-a", "assembly.fa", "-b", "blacklist.tsv",
         "-f", "min_support", "-f", "mismappers,bogus"]
        = ⟨["WARNING: missing option: -r, no read-through fusions will be detected"],
            Except.ok o⟩
      ∧ o.filters.find "min_support" = some false
      ∧ o.filters.find "mismappers" = some true :=
  ⟨by decide, _, rfl, by decide, by decide⟩

/-- C3: when `parse_arguments` returns a record, `print_supporting_reads` is true exactly
when `-I` occurs at least once among the flags `getopt` reports, and
`print_supporting_reads_for_discarded_fusions` exactly when it occurs at least twice;
only the number of occurrences counts, not their place. -/
theorem C3_print_supporting_reads (P : Platform) (argv : List String) (o : ariba.options_t)
    (h : (ariba.parse_arguments P argv).result = Except.ok o) :
    (o.print_supporting_reads = true
        ↔ 1 ≤ flag_count 'I' (getopt_calls P.posixly_correct ariba.optstring argv))
      ∧ (o.print_supporting_reads_for_discarded_fusions = true
        ↔ 2 ≤ flag_count 'I' (getopt_calls P.posixly_correct ariba.optstring argv)) := by
  obtain ⟨st, hs, hc⟩ := ariba.parse_arguments_ok P argv o h
  have ho := ariba.check_ok st.options o hc
  obtain ⟨h1, h2⟩ := ariba.scan_print_supporting_reads P _ _ st hs
  subst ho
  simp only [h1, h2]
  simp [ariba.scan_init, ariba.get_default_options]

/-- C3, at an input with three occurrences of `-I`, one of them in a group with `-l`. -/
theorem C3_print_supporting_reads_witness :
    flag_count 'I' (getopt_calls example_platform.posixly_correct ariba.optstring
        ["ariba", "-I", "-c", "chimeric.bam", "-x", "rna.bam", "-lI", "-g", "genes.bed",
         "-e", "exons.bed", "-o", "fusions.out", "-f", "mismappers,blacklist", "-I"]) = 3
    ∧ ∃ o, (ariba.parse_arguments example_platform
        ["ariba", "-I", "-c", "chimeric.bam", "-x", "rna.bam", "-lI", "-g", "genes.bed",
         "-e", "exons.bed", "-o", "fusions.out", "-f", "mismappers,blacklist", "-I"]).result
          = Except.ok o
      ∧ o.print_supporting_reads = true
      ∧ o.print_supporting_reads_for_discarded_fusions = true :=
  ⟨by decide, _, rfl,
   (C3_print_supporting_reads example_platform
      ["ariba", "-I", "-c", "chimeric.bam", "-x", "rna.bam", "-lI", "-g", "genes.bed",
       "-e", "exons.bed", "-o", "fusions.out", "-f", "mismappers,blacklist", "-I"] _ rfl).1.mpr
      (by decide),
   (C3_print_supporting_reads example_platform
      ["ariba", "-I", "-c", "chimeric.bam", "-x", "rna.bam", "-lI", "-g", "genes.bed",
       "-e", "exons.bed", "-o", "fusions.out", "-f", "mismappers,blacklist", "-I"] _ rfl).2.mpr
      (by decide)⟩

/-- C4 (defect): `mismappers` named in a `-f` that is not the first one is not disabled.
On `-c -x -g -e -o`, no `-a`, and `-f blacklist -f mismappers`, the run terminates with
`Filter 'mismappers' enabled, but missing option: -a` although a `-f` names
`mismappers`; with the two `-f` in the other order it returns a record with an empty
assembly path. The second `-f` is not processed, as `failbit` is still set on the
stream. -/
theorem C4_later_f_does_not_disable :
    "mismappers" ∈ f_names (getopt_calls example_platform.posixly_correct ariba.optstring
        ["ariba", "-c", "chimeric.bam", "-x", "rna.bam", "-g", "genes.bed", "-e", "exons.bed",
         "-o", "fusions.out", "-f", "blacklist", "-f", "mismappers"])
    ∧ flag_count 'a' (getopt_calls example_platform.posixly_correct ariba.optstring
        ["ariba", "-c", "chimeric.bam", "-x", "rna.bam", "-g", "genes.bed", "-e", "exons.bed",
         "-o", "fusions.out", "-f", "blacklist", "-f", "mismappers"]) = 0
    ∧ (ariba.parse_arguments example_platform
        ["ariba", "-c", "chimeric.bam", "-x", "rna.bam", "-g", "genes.bed", "-e", "exons.bed",
         "-o", "fusions.out", "-f", "blacklist", "-f", "mismappers"]).result
        = Except.error (Exit.usage "Filter 'mismappers' enabled, but missing option: -a")
    ∧ ∃ o, (ariba.parse_arguments example_platform
        ["ariba", "-c", "chimeric.bam", "-x", "rna.bam", "-g", "genes.bed", "-e", "exons.bed",
         "-o", "fusions.out", "-f", "mismappers", "-f", "blacklist", "-b",
         "blacklist.tsv"]).result = Except.ok o
      ∧ o.assembly_file = "" :=
  ⟨by decide, by decide, rfl, _, rfl, rfl⟩

/-- C5: the checks after the scanning loop return a record exactly when `-c`, `-x`, `-g`,
`-e` and `-o` are non-empty, `mismappers` enabled comes with a non-empty `-a`, and
`blacklist` enabled with a non-empty `-b`; otherwise they terminate through
`print_usage` with one message, that of the first check that fails in the order `-c`,
`-x`, `-g`, `-e`, `-o`, `mismappers`/`-a`, `blacklist`/`-b`. -/
theorem C5_checks_after_scanning (o : ariba.options_t) :
    ((∃ o', (ariba.check_mandatory_arguments o).result = Except.ok o') ↔
        (o.chimeric_bam_file ≠ "" ∧ o.rna_bam_file ≠ "" ∧ o.gene_annotation_file ≠ ""
          ∧ o.exon_annotation_file ≠ "" ∧ o.output_file ≠ ""
          ∧ (o.filters.find "mismappers" = some true → o.assembly_file ≠ "")
          ∧ (o.filters.find "blacklist" = some true → o.blacklist_file ≠ "")))
    ∧ (ariba.check_mandatory_arguments o).result =
        match ariba.failed_checks o with
        | [] => Except.ok
            { o with filters := ((o.filters.index "mismappers").2.index "blacklist").2 }
        | msg :: _ => Except.error (Exit.usage msg) := by
  rw [ariba.check_result]
  unfold ariba.failed_checks
  by_cases hc : o.chimeric_bam_file = ""
  · simp [hc]
  by_cases hx : o.rna_bam_file = ""
  · simp [hc, hx]
  by_cases hg : o.gene_annotation_file = ""
  · simp [hc, hx, hg]
  by_cases he : o.exon_annotation_file = ""
  · simp [hc, hx, hg, he]
  by_cases ho : o.output_file = ""
  · simp [hc, hx, hg, he, ho]
  by_cases hm : o.filters.find "mismappers" = some true ∧ o.assembly_file = ""
  · simp only [hc, hx, hg, he, ho, hm, if_false, if_true]
    simp [hm.1, hm.2]
  by_cases hb : o.filters.find "blacklist" = some true ∧ o.blacklist_file = ""
  · simp only [hc, hx, hg, he, ho, hm, hb, if_false, if_true]
    have hm' : o.filters.find "mismappers" = some true → ¬ o.assembly_file = "" :=
      fun h1 h2 => hm ⟨h1, h2⟩
    simp [hb.1, hb.2, hm']
  · simp only [hc, hx, hg, he, ho, hm, hb, if_false]
    have hm' : o.filters.find "mismappers" = some true → ¬ o.assembly_file = "" :=
      fun h1 h2 => hm ⟨h1, h2⟩
    have hb' : o.filters.find "blacklist" = some true → ¬ o.blacklist_file = "" :=
      fun h1 h2 => hb ⟨h1, h2⟩
    exact ⟨⟨fun _ => ⟨hc, hx, hg, he, ho, hm', hb'⟩, fun _ => ⟨_, rfl⟩⟩, rfl⟩

/-- C6: when scanning reaches a `-m` whose value `v = atof(optarg)` is below 0 or above 1,
the run terminates through `print_usage` with `Argument to -`, the character `optopt`
holds and ` must be between 0 and 1.`, whatever `getopt` would report after that `-m`;
and when `0 <= v <= 1`, scanning goes on with `max_mismapper_fraction` equal to `v`. -/
theorem C6_max_mismapper_fraction_range (P : Platform) (argv : List String)
    (pre post : List getopt_result) (a : String) (st : ariba.scan_state)
    (hcalls : getopt_calls P.posixly_correct ariba.optstring argv
      = pre ++ getopt_result.option 'm' a :: post)
    (hpre : ariba.scan P (ariba.scan_init P) pre = Except.ok st) :
    ((P.atof a).outside_unit_interval →
        ariba.parse_arguments P argv
          = ⟨[], Except.error (Exit.usage
              ("Argument to -" ++ String.singleton P.optopt_after_option
                ++ " must be between 0 and 1."))⟩)
    ∧ ((P.atof a).in_unit_interval →
        ariba.scan P (ariba.scan_init P) (pre ++ [getopt_result.option 'm' a])
          = Except.ok { st with options.max_mismapper_fraction := P.atof a }) := by
  constructor
  · intro hv
    apply ariba.parse_arguments_of_scan_error
    rw [hcalls, ariba.scan_append, hpre]
    apply ariba.scan_cons_error
    rw [ariba.parse_option_m, if_pos (FVal.outside_of_outside_unit_interval _ hv)]
  · intro hv
    rw [ariba.scan_append, hpre]
    simp only [ariba.scan]
    rw [ariba.parse_option_m, if_neg (by simp [FVal.not_outside_of_in_unit_interval _ hv])]

/-- C6, at three inputs: `-l -m 2 -z -c` and `-l -m -1 -z` are rejected at `-m` (glibc
leaves the character 0 in `optopt`), and `-l -m 0.25` is accepted. -/
theorem C6_max_mismapper_fraction_range_witness :
    ariba.parse_arguments example_platform ["ariba", "-l", "-m", "2", "-z", "-c"]
      = ⟨[], Except.error (Exit.usage
          ("Argument to -" ++ String.singleton (Char.ofNat 0) ++ " must be between 0 and 1."))⟩
    ∧ ariba.parse_arguments example_platform ["ariba", "-l", "-m", "-1", "-z"]
      = ⟨[], Except.error (Exit.usage
          ("Argument to -" ++ String.singleton (Char.ofNat 0) ++ " must be between 0 and 1."))⟩
    ∧ ariba.scan example_platform (ariba.scan_init example_platform)
        ([getopt_result.option 'l' ""] ++ [getopt_result.option 'm' "0.25"])
      = Except.ok { ariba.scan_init example_platform with
          options.low_tumor_content := true
          options.max_mismapper_fraction := FVal.fin (1 / 4) } :=
  ⟨(C6_max_mismapper_fraction_range example_platform ["ariba", "-l", "-m", "2", "-z", "-c"]
      [getopt_result.option 'l' ""] [getopt_result.error 'z', getopt_result.error 'c'] "2"
      { ariba.scan_init example_platform with options.low_tumor_content := true }
      (by decide) rfl).1 (by
        show (2 : ℚ) < 0 ∨ (1 : ℚ) < 2
        exact Or.inr (by norm_num)),
   (C6_max_mismapper_fraction_range example_platform ["ariba", "-l", "-m", "-1", "-z"]
      [getopt_result.option 'l' ""] [getopt_result.error 'z'] "-1"
      { ariba.scan_init example_platform with options.low_tumor_content := true }
      (by decide) rfl).1 (by
        show (-1 : ℚ) < 0 ∨ (1 : ℚ) < -1
        exact Or.inl (by norm_num)),
   (C6_max_mismapper_fraction_range example_platform ["ariba", "-l", "-m", "0.25"]
      [getopt_result.option 'l' ""] [] "0.25"
      { ariba.scan_init example_platform with options.low_tumor_content := true }
      (by decide) rfl).2 (by
        show (0 : ℚ) ≤ 1 / 4 ∧ (1 : ℚ) / 4 ≤ 1
        constructor <;> norm_num)⟩

/-- C7: (1) an argument list whose scan goes through, that supplies `-c`, `-x`, `-g`, `-e`,
`-o` and what its enabled filters require, and has no `-r`, does not terminate:
`parse_arguments` writes exactly the warning about `-r` and returns the scanned record,
whose read-through path is empty; (2) taking the `-r` out of an argument list on which
`parse_arguments` returns a record gives that warning and the same record with an empty
read-through path; (3) when `-r` occurs and `parse_arguments` returns, nothing is written
(given that `access` rejects the empty path). -/
theorem C7_missing_read_through_warns (P : Platform) :
    (∀ (argv : List String) (st : ariba.scan_state),
      ariba.scan P (ariba.scan_init P) (getopt_calls P.posixly_correct ariba.optstring argv)
        = Except.ok st →
      st.options.chimeric_bam_file ≠ "" → st.options.rna_bam_file ≠ "" →
      st.options.gene_annotation_file ≠ "" → st.options.exon_annotation_file ≠ "" →
      st.options.output_file ≠ "" →
      (st.options.filters.find "mismappers" = some true → st.options.assembly_file ≠ "") →
      (st.options.filters.find "blacklist" = some true → st.options.blacklist_file ≠ "") →
      flag_count 'r' (getopt_calls P.posixly_correct ariba.optstring argv) = 0 →
      ariba.parse_arguments P argv
          = ⟨["WARNING: missing option: -r, no read-through fusions will be detected"],
            Except.ok { st.options with
              filters := ((st.options.filters.index "mismappers").2.index "blacklist").2 }⟩
        ∧ st.options.read_through_bam_file = "")
    ∧ (∀ (argv_r argv : List String) (pre post : List getopt_result) (p : String)
        (o_r : ariba.options_t),
      getopt_calls P.posixly_correct ariba.optstring argv_r
        = pre ++ getopt_result.option 'r' p :: post →
      getopt_calls P.posixly_correct ariba.optstring argv = pre ++ post →
      flag_count 'r' pre = 0 → flag_count 'r' post = 0 →
      (ariba.parse_arguments P argv_r).result = Except.ok o_r →
      ariba.parse_arguments P argv
        = ⟨["WARNING: missing option: -r, no read-through fusions will be detected"],
            Except.ok { o_r with read_through_bam_file := "" }⟩)
    ∧ (∀ (argv : List String) (o : ariba.options_t),
      (ariba.parse_arguments P argv).result = Except.ok o →
      flag_count 'r' (getopt_calls P.posixly_correct ariba.optstring argv) ≠ 0 →
      P.access "" = false →
      (ariba.parse_arguments P argv).cerr = []) := by
  refine ⟨?_, ?_, ?_⟩
  · intro argv st hs hc hx hg he ho hm hb hr
    have hrt : st.options.read_through_bam_file = "" :=
      ariba.scan_read_through_bam_file P _ _ st hr hs
    refine ⟨?_, hrt⟩
    rw [ariba.parse_arguments_of_scan P argv st hs]
    apply ariba.Run.eq_mk
    · rw [ariba.check_cerr, if_neg hc, if_pos hrt, ariba.missing_r_warning]
    · have hm' : ¬ (st.options.filters.find "mismappers" = some true
          ∧ st.options.assembly_file = "") := fun h => hm h.1 h.2
      have hb' : ¬ (st.options.filters.find "blacklist" = some true
          ∧ st.options.blacklist_file = "") := fun h => hb h.1 h.2
      rw [ariba.check_result]
      simp only [hc, hx, hg, he, ho, hm', hb', if_false]
  · intro argv_r argv pre post p o_r hcr hcn hpre hpost hok
    obtain ⟨st_r, hs, hch⟩ := ariba.parse_arguments_ok P argv_r o_r hok
    rw [hcr] at hs
    obtain ⟨st, hsn, hrt, hst⟩ := ariba.scan_without_r P pre post p st_r hpre hpost hs
    rw [← hcn] at hsn
    rw [ariba.parse_arguments_of_scan P argv st hsn]
    subst hst
    have h1 := ariba.check_result_with_r st.options p
    simp only at hch
    rw [hch] at h1
    cases h2 : (ariba.check_mandatory_arguments st.options).result with
    | error e => rw [h2] at h1; cases h1
    | ok o' =>
      rw [h2] at h1
      cases h1
      have ho' := ariba.check_ok st.options o' h2
      have hne : st.options.chimeric_bam_file ≠ "" := by
        intro h
        rw [ariba.check_result, if_pos h] at h2
        cases h2
      apply ariba.Run.eq_mk
      · rw [ariba.check_cerr, if_neg hne, if_pos hrt, ariba.missing_r_warning]
      · rw [h2, ho']
        simp only [hrt]
  · intro argv o hok hr hacc
    obtain ⟨st, hs, hch⟩ := ariba.parse_arguments_ok P argv o hok
    have h1 := ariba.scan_r_supplied P _ _ st hs (Or.inl hr)
    have hne : st.options.read_through_bam_file ≠ "" := by
      intro h
      rw [h, hacc] at h1
      cases h1
    rw [ariba.parse_arguments_of_scan P argv st hs, ariba.check_cerr]
    split_ifs <;> rfl

/-- C7, at an input without `-r` and at the same input with `-r read_through.bam`. -/
theorem C7_missing_read_through_warns_witness :
    (ariba.parse_arguments example_platform
        ["ariba", "-c", "chimeric.bam", "-x", "rna.bam", "-g", "genes.bed", "-e", "exons.bed",
         "-o", "fusions.out", "-a", "assembly.fa", "-f", "blacklist"]).cerr
      = ["WARNING: missing option: -r, no read-through fusions will be detected"]
    ∧ (∃ o_r, (ariba.parse_arguments example_platform
        ["ariba", "-c", "chimeric.bam", "-r", "read_through.bam", "-x", "rna.bam", "-g",
         "genes.bed", "-e", "exons.bed", "-o", "fusions.out", "-a", "assembly.fa", "-f",
         "blacklist"]).result = Except.ok o_r
      ∧ ariba.parse_arguments example_platform
        ["ariba", "-c", "chimeric.bam", "-x", "rna.bam", "-g", "genes.bed", "-e", "exons.bed",
         "-o", "fusions.out", "-a", "assembly.fa", "-f", "blacklist"]
        = ⟨["WARNING: missing option: -r, no read-through fusions will be detected"],
            Except.ok { o_r with read_through_bam_file := "" }⟩)
    ∧ (ariba.parse_arguments example_platform
        ["ariba", "-c", "chimeric.bam", "-r", "read_through.bam", "-x", "rna.bam", "-g",
         "genes.bed", "-e", "exons.bed", "-o", "fusions.out", "-a", "assembly.fa", "-f",
         "blacklist"]).cerr = [] :=
  ⟨congrArg ariba.Run.cerr
      ((C7_missing_read_through_warns example_platform).1
        ["ariba", "-c", "chimeric.bam", "-x", "rna.bam", "-g", "genes.bed", "-e", "exons.bed",
         "-o", "fusions.out", "-a", "assembly.fa", "-f", "blacklist"] _ rfl
        (by decide) (by decide) (by decide) (by decide) (by decide) (by decide) (by decide)
        (by decide)).1,
   ⟨_, rfl, (C7_missing_read_through_warns example_platform).2.1
      ["ariba", "-c", "chimeric.bam", "-r", "read_through.bam", "-x", "rna.bam", "-g",
       "genes.bed", "-e", "exons.bed", "-o", "fusions.out", "-a", "assembly.fa", "-f",
       "blacklist"]
      ["ariba", "-c", "chimeric.bam", "-x", "rna.bam", "-g", "genes.bed", "-e", "exons.bed",
       "-o", "fusions.out", "-a", "assembly.fa", "-f", "blacklist"]
      [getopt_result.option 'c' "chimeric.bam"]
      [getopt_result.option 'x' "rna.bam", getopt_result.option 'g' "genes.bed",
       getopt_result.option 'e' "exons.bed", getopt_result.option 'o' "fusions.out",
       getopt_result.option 'a' "assembly.fa", getopt_result.option 'f' "blacklist"]
      "read_through.bam" _ (by decide) (by decide) (by decide) (by decide) rfl⟩,
   (C7_missing_read_through_warns example_platform).2.2
      ["ariba", "-c", "chimeric.bam", "-r", "read_through.bam", "-x", "rna.bam", "-g",
       "genes.bed", "-e", "exons.bed", "-o", "fusions.out", "-a", "assembly.fa", "-f",
       "blacklist"] _ rfl (by decide) (by decide)⟩

/-- C8 (defect): with the filters `mismappers`, `blacklist` and `min_support` registered, the
run on `... -a assembly.fa -b blacklist.tsv -f min_support` returns a record whose filter
map has the keys of the registry and one more, the empty string: the key set is not the
key set of `get_default_options().filters`. -/
theorem C8_empty_key_added :
    ∃ o, (ariba.parse_arguments example_platform
        ["ariba", "-c", "chimeric.bam", "-x", "rna.bam", "-g", "genes.bed", "-e", "exons.bed",
         "-o", "fusions.out", "-a", "assembly.fa", "-b", "blacklist.tsv",
         "-f", "min_support"]).result = Except.ok o
      ∧ o.filters.keys = ["mismappers", "blacklist", "min_support", ""]
      ∧ (ariba.get_default_options example_platform).filters.keys
          = ["mismappers", "blacklist", "min_support"]
      ∧ "" ∈ o.filters.keys
      ∧ "" ∉ (ariba.get_default_options example_platform).filters.keys :=
  ⟨_, rfl, rfl, rfl, by decide, by decide⟩

/-- C9 (defect): in the companion tool `-G` takes a value (`G:` in the option string), and
`-G` with its value missing terminates with `Unknown option: -G`, not with
`Option -G requires an argument.`: the inner `switch (optopt)` lists `g`, `i` and `o` only.
The flags `-g`, `-i` and `-o` get the message of a missing argument. -/
theorem C9_companion_G_reported_unknown (P : Platform) :
    option_kind extract_read_through_fusions.optstring 'G' = some true
    ∧ extract_read_through_fusions.parse_arguments P ["extract_read-through_fusions", "-G"]
        = Except.error (Exit.usage "Unknown option: -G")
    ∧ extract_read_through_fusions.parse_arguments P ["extract_read-through_fusions", "-g"]
        = Except.error (Exit.usage "Option -g requires an argument.")
    ∧ extract_read_through_fusions.parse_arguments P ["extract_read-through_fusions", "-i"]
        = Except.error (Exit.usage "Option -i requires an argument.")
    ∧ extract_read_through_fusions.parse_arguments P ["extract_read-through_fusions", "-o"]
        = Except.error (Exit.usage "Option -o requires an argument.") :=
  ⟨by decide, rfl, rfl, rfl, rfl⟩

/-- C10: when `parse_arguments` returns a record, the field of every flag that does not
occur among the flags `getopt` reports has the value `get_default_options` gives it. In
the fusion caller that is `"1 2 ... 22 X Y"` for `-i`, 2 for `-s`, 20 for `-A`, 6 for
`-H`, 10000 for `-D`, false for `-l` and, without `-f`, every registered filter enabled;
in the companion tool `/dev/stdin` for `-i`, `/dev/stdout` for `-o` and false for `-1`. -/
theorem C10_absent_flag_keeps_default (P : Platform) :
    (∀ (argv : List String) (o : ariba.options_t),
      (ariba.parse_arguments P argv).result = Except.ok o →
      (flag_count 'i' (getopt_calls P.posixly_correct ariba.optstring argv) = 0 →
        o.interesting_contigs = "1 2 3 4 5 6 7 8 9 10 11 12 13 14 15 16 17 18 19 20 21 22 X Y")
      ∧ (flag_count 's' (getopt_calls P.posixly_correct ariba.optstring argv) = 0 →
        o.min_support = 2)
      ∧ (flag_count 'A' (getopt_calls P.posixly_correct ariba.optstring argv) = 0 →
        o.min_anchor_length = 20)
      ∧ (flag_count 'H' (getopt_calls P.posixly_correct ariba.optstring argv) = 0 →
        o.homopolymer_length = 6)
      ∧ (flag_count 'D' (getopt_calls P.posixly_correct ariba.optstring argv) = 0 →
        o.min_read_through_distance = 10000)
      ∧ (flag_count 'l' (getopt_calls P.posixly_correct ariba.optstring argv) = 0 →
        o.low_tumor_content = false)
      ∧ (flag_count 'f' (getopt_calls P.posixly_correct ariba.optstring argv) = 0 →
        (∀ name ∈ P.FILTERS, o.filters.find name = some true)
        ∧ ("mismappers" ∈ P.FILTERS → "blacklist" ∈ P.FILTERS →
            o.filters = (ariba.get_default_options P).filters))
      ∧ (flag_count 'I' (getopt_calls P.posixly_correct ariba.optstring argv) = 0 →
        o.print_supporting_reads = false
        ∧ o.print_supporting_reads_for_discarded_fusions = false)
      ∧ (flag_count 'E' (getopt_calls P.posixly_correct ariba.optstring argv) = 0 →
        o.evalue_cutoff = (ariba.get_default_options P).evalue_cutoff)
      ∧ (flag_count 'm' (getopt_calls P.posixly_correct ariba.optstring argv) = 0 →
        o.max_mismapper_fraction = (ariba.get_default_options P).max_mismapper_fraction)
      ∧ (flag_count 'K' (getopt_calls P.posixly_correct ariba.optstring argv) = 0 →
        o.max_kmer_content = (ariba.get_default_options P).max_kmer_content)
      ∧ (flag_count 'r' (getopt_calls P.posixly_correct ariba.optstring argv) = 0 →
        o.read_through_bam_file = "")
      ∧ (flag_count 'O' (getopt_calls P.posixly_correct ariba.optstring argv) = 0 →
        o.discarded_output_file = "")
      ∧ (flag_count 'a' (getopt_calls P.posixly_correct ariba.optstring argv) = 0 →
        o.assembly_file = "")
      ∧ (flag_count 'k' (getopt_calls P.posixly_correct ariba.optstring argv) = 0 →
        o.known_fusions_file = "")
      ∧ (flag_count 'b' (getopt_calls P.posixly_correct ariba.optstring argv) = 0 →
        o.blacklist_file = "")
      ∧ (flag_count 'c' (getopt_calls P.posixly_correct ariba.optstring argv) = 0 →
        o.chimeric_bam_file = "")
      ∧ (flag_count 'x' (getopt_calls P.posixly_correct ariba.optstring argv) = 0 →
        o.rna_bam_file = "")
      ∧ (flag_count 'g' (getopt_calls P.posixly_correct ariba.optstring argv) = 0 →
        o.gene_annotation_file = "")
      ∧ (flag_count 'e' (getopt_calls P.posixly_correct ariba.optstring argv) = 0 →
        o.exon_annotation_file = "")
      ∧ (flag_count 'o' (getopt_calls P.posixly_correct ariba.optstring argv) = 0 →
        o.output_file = ""))
    ∧ (∀ (argv : List String) (o : extract_read_through_fusions.options_t),
      extract_read_through_fusions.parse_arguments P argv = Except.ok o →
      (flag_count 'i'
          (getopt_calls P.posixly_correct extract_read_through_fusions.optstring argv) = 0 →
        o.input_bam_file = "/dev/stdin")
      ∧ (flag_count 'o'
          (getopt_calls P.posixly_correct extract_read_through_fusions.optstring argv) = 0 →
        o.output_bam_file = "/dev/stdout")
      ∧ (flag_count '1'
          (getopt_calls P.posixly_correct extract_read_through_fusions.optstring argv) = 0 →
        o.single_end = false)
      ∧ (flag_count 'G'
          (getopt_calls P.posixly_correct extract_read_through_fusions.optstring argv) = 0 →
        o.gtf_features = P.DEFAULT_GTF_FEATURES)
      ∧ (flag_count 'g'
          (getopt_calls P.posixly_correct extract_read_through_fusions.optstring argv) = 0 →
        o.gene_annotation_file = "")) := by
  constructor
  · intro argv o h
    obtain ⟨st, hs, hc⟩ := ariba.parse_arguments_ok P argv o h
    have ho := ariba.check_ok st.options o hc
    refine ⟨?_, ?_, ?_, ?_, ?_, ?_, ?_, ?_, ?_, ?_, ?_, ?_, ?_, ?_, ?_, ?_, ?_, ?_, ?_, ?_, ?_⟩
    · intro hf; rw [ho]
      exact ariba.scan_frame P (fun s => s.options.interesting_contigs) 'i'
        (ariba.frame_interesting_contigs P) _ _ st hf hs
    · intro hf; rw [ho]
      exact ariba.scan_frame P (fun s => s.options.min_support) 's'
        (ariba.frame_min_support P) _ _ st hf hs
    · intro hf; rw [ho]
      exact ariba.scan_frame P (fun s => s.options.min_anchor_length) 'A'
        (ariba.frame_min_anchor_length P) _ _ st hf hs
    · intro hf; rw [ho]
      exact ariba.scan_frame P (fun s => s.options.homopolymer_length) 'H'
        (ariba.frame_homopolymer_length P) _ _ st hf hs
    · intro hf; rw [ho]
      exact ariba.scan_frame P (fun s => s.options.min_read_through_distance) 'D'
        (ariba.frame_min_read_through_distance P) _ _ st hf hs
    · intro hf; rw [ho]
      exact ariba.scan_frame P (fun s => s.options.low_tumor_content) 'l'
        (ariba.frame_low_tumor_content P) _ _ st hf hs
    · intro hf
      exact ariba.filters_without_f P argv o h hf
    · intro hf; rw [ho]
      exact ⟨ariba.scan_frame P (fun s => s.options.print_supporting_reads) 'I'
          (ariba.frame_print_supporting_reads P) _ _ st hf hs,
        ariba.scan_frame P (fun s => s.options.print_supporting_reads_for_discarded_fusions) 'I'
          (ariba.frame_print_supporting_reads_for_discarded_fusions P) _ _ st hf hs⟩
    · intro hf; rw [ho]
      exact ariba.scan_frame P (fun s => s.options.evalue_cutoff) 'E'
        (ariba.frame_evalue_cutoff P) _ _ st hf hs
    · intro hf; rw [ho]
      exact ariba.scan_frame P (fun s => s.options.max_mismapper_fraction) 'm'
        (ariba.frame_max_mismapper_fraction P) _ _ st hf hs
    · intro hf; rw [ho]
      exact ariba.scan_frame P (fun s => s.options.max_kmer_content) 'K'
        (ariba.frame_max_kmer_content P) _ _ st hf hs
    · intro hf; rw [ho]
      exact ariba.scan_frame P (fun s => s.options.read_through_bam_file) 'r'
        (ariba.frame_read_through_bam_file P) _ _ st hf hs
    · intro hf; rw [ho]
      exact ariba.scan_frame P (fun s => s.options.discarded_output_file) 'O'
        (ariba.frame_discarded_output_file P) _ _ st hf hs
    · intro hf; rw [ho]
      exact ariba.scan_frame P (fun s => s.options.assembly_file) 'a'
        (ariba.frame_assembly_file P) _ _ st hf hs
    · intro hf; rw [ho]
      exact ariba.scan_frame P (fun s => s.options.known_fusions_file) 'k'
        (ariba.frame_known_fusions_file P) _ _ st hf hs
    · intro hf; rw [ho]
      exact ariba.scan_frame P (fun s => s.options.blacklist_file) 'b'
        (ariba.frame_blacklist_file P) _ _ st hf hs
    · intro hf; rw [ho]
      exact ariba.scan_frame P (fun s => s.options.chimeric_bam_file) 'c'
        (ariba.frame_chimeric_bam_file P) _ _ st hf hs
    · intro hf; rw [ho]
      exact ariba.scan_frame P (fun s => s.options.rna_bam_file) 'x'
        (ariba.frame_rna_bam_file P) _ _ st hf hs
    · intro hf; rw [ho]
      exact ariba.scan_frame P (fun s => s.options.gene_annotation_file) 'g'
        (ariba.frame_gene_annotation_file P) _ _ st hf hs
    · intro hf; rw [ho]
      exact ariba.scan_frame P (fun s => s.options.exon_annotation_file) 'e'
        (ariba.frame_exon_annotation_file P) _ _ st hf hs
    · intro hf; rw [ho]
      exact ariba.scan_frame P (fun s => s.options.output_file) 'o'
        (ariba.frame_output_file P) _ _ st hf hs
  · intro argv o h
    have hs := extract_read_through_fusions.companion_parse_arguments_ok P argv o h
    refine ⟨?_, ?_, ?_, ?_, ?_⟩
    · intro hf
      exact extract_read_through_fusions.companion_scan_frame P (fun s => s.input_bam_file) 'i'
        (extract_read_through_fusions.companion_frame_input_bam_file P) _ _ o hf hs
    · intro hf
      exact extract_read_through_fusions.companion_scan_frame P (fun s => s.output_bam_file) 'o'
        (extract_read_through_fusions.companion_frame_output_bam_file P) _ _ o hf hs
    · intro hf
      exact extract_read_through_fusions.companion_scan_frame P (fun s => s.single_end) '1'
        (extract_read_through_fusions.companion_frame_single_end P) _ _ o hf hs
    · intro hf
      exact extract_read_through_fusions.companion_scan_frame P (fun s => s.gtf_features) 'G'
        (extract_read_through_fusions.companion_frame_gtf_features P) _ _ o hf hs
    · intro hf
      exact extract_read_through_fusions.companion_scan_frame P
        (fun s => s.gene_annotation_file) 'g'
        (extract_read_through_fusions.companion_frame_gene_annotation_file P) _ _ o hf hs

/-- C10, at an input of each tool that has only the mandatory flags (and `-a`, `-b`). -/
theorem C10_absent_flag_keeps_default_witness :
    (∃ o, (ariba.parse_arguments example_platform
        ["ariba", "-c", "chimeric.bam", "-x", "rna.bam", "-g", "genes.bed", "-e", "exons.bed",
         "-o", "fusions.out", "-a", "assembly.fa", "-b", "blacklist.tsv"]).result = Except.ok o
      ∧ o.min_support = 2 ∧ o.homopolymer_length = 6
      ∧ ∀ name ∈ example_platform.FILTERS, o.filters.find name = some true)
    ∧ (∃ o, extract_read_through_fusions.parse_arguments example_platform
        ["extract_read-through_fusions", "-g", "annotation.gtf", "-1"] = Except.ok o
      ∧ o.input_bam_file = "/dev/stdin" ∧ o.output_bam_file = "/dev/stdout") :=
  ⟨⟨_, rfl,
    ((C10_absent_flag_keeps_default example_platform).1
      ["ariba", "-c", "chimeric.bam", "-x", "rna.bam", "-g", "genes.bed", "-e", "exons.bed",
       "-o", "fusions.out", "-a", "assembly.fa", "-b", "blacklist.tsv"] _ rfl).2.1 (by decide),
    ((C10_absent_flag_keeps_default example_platform).1
      ["ariba", "-c", "chimeric.bam", "-x", "rna.bam", "-g", "genes.bed", "-e", "exons.bed",
       "-o", "fusions.out", "-a", "assembly.fa", "-b", "blacklist.tsv"] _ rfl).2.2.2.1
      (by decide),
    (((C10_absent_flag_keeps_default example_platform).1
      ["ariba", "-c", "chimeric.bam", "-x", "rna.bam", "-g", "genes.bed", "-e", "exons.bed",
       "-o", "fusions.out", "-a", "assembly.fa", "-b", "blacklist.tsv"] _ rfl).2.2.2.2.2.2.1
      (by decide)).1⟩,
   ⟨_, rfl,
    ((C10_absent_flag_keeps_default example_platform).2
      ["extract_read-through_fusions", "-g", "annotation.gtf", "-1"] _ rfl).1 (by decide),
    ((C10_absent_flag_keeps_default example_platform).2
      ["extract_read-through_fusions", "-g", "annotation.gtf", "-1"] _ rfl).2.1 (by decide)⟩⟩

/-- C11: when `parse_arguments` returns a record and a flag occurs exactly once among the
flags `getopt` reports, with value `v`, the field of the flag holds the parsed value: `v`
itself for `-c -r -x -g -e -o -O -a -k -b`, `atoi(v)` for `-s -H -D -A`, `atof(v)` for
`-E -K -m`, true for `-l`, and for `-i` the string `v` with every comma replaced by a
space: same length, no comma, every other character as in `v`. -/
theorem C11_single_occurrence_sets_field (P : Platform) (argv : List String)
    (o : ariba.options_t) (c : Char) (v : String)
    (hok : (ariba.parse_arguments P argv).result = Except.ok o)
    (hmem : getopt_result.option c v ∈ getopt_calls P.posixly_correct ariba.optstring argv)
    (hone : flag_count c (getopt_calls P.posixly_correct ariba.optstring argv) = 1) :
    (c = 'c' → o.chimeric_bam_file = v)
    ∧ (c = 'r' → o.read_through_bam_file = v)
    ∧ (c = 'x' → o.rna_bam_file = v)
    ∧ (c = 'g' → o.gene_annotation_file = v)
    ∧ (c = 'e' → o.exon_annotation_file = v)
    ∧ (c = 'o' → o.output_file = v)
    ∧ (c = 'O' → o.discarded_output_file = v)
    ∧ (c = 'a' → o.assembly_file = v)
    ∧ (c = 'b' → o.blacklist_file = v)
    ∧ (c = 'k' → o.known_fusions_file = v)
    ∧ (c = 's' → o.min_support = P.atoi v)
    ∧ (c = 'H' → o.homopolymer_length = P.atoi v)
    ∧ (c = 'D' → o.min_read_through_distance = P.atoi v)
    ∧ (c = 'A' → o.min_anchor_length = P.atoi v)
    ∧ (c = 'E' → o.evalue_cutoff = P.atof v)
    ∧ (c = 'K' → o.max_kmer_content = P.atof v)
    ∧ (c = 'm' → o.max_mismapper_fraction = P.atof v)
    ∧ (c = 'l' → o.low_tumor_content = true)
    ∧ (c = 'i' → o.interesting_contigs = replace_commas v
        ∧ o.interesting_contigs.data.length = v.data.length
        ∧ ',' ∉ o.interesting_contigs.data
        ∧ ∀ (i : Nat) (hi : i < v.data.length),
            o.interesting_contigs.data[i]? = some (if v.data[i] = ',' then ' ' else v.data[i])) := by
  obtain ⟨pre, post, hsplit, _, hpost⟩ := flag_count_one_split c v _ hmem hone
  obtain ⟨st, hs, hc⟩ := ariba.parse_arguments_ok P argv o hok
  have ho := ariba.check_ok st.options o hc
  rw [hsplit] at hs
  refine ⟨?_, ?_, ?_, ?_, ?_, ?_, ?_, ?_, ?_, ?_, ?_, ?_, ?_, ?_, ?_, ?_, ?_, ?_, ?_⟩
  · intro h; subst h; rw [ho]
    exact ariba.scan_last_write P (fun s => s.options.chimeric_bam_file) 'c' (fun v => v)
      (ariba.set_chimeric_bam_file P) (ariba.frame_chimeric_bam_file P) pre post v _ st hpost hs
  · intro h; subst h; rw [ho]
    exact ariba.scan_last_write P (fun s => s.options.read_through_bam_file) 'r' (fun v => v)
      (ariba.set_read_through_bam_file P) (ariba.frame_read_through_bam_file P) pre post v _ st hpost hs
  · intro h; subst h; rw [ho]
    exact ariba.scan_last_write P (fun s => s.options.rna_bam_file) 'x' (fun v => v)
      (ariba.set_rna_bam_file P) (ariba.frame_rna_bam_file P) pre post v _ st hpost hs
  · intro h; subst h; rw [ho]
    exact ariba.scan_last_write P (fun s => s.options.gene_annotation_file) 'g' (fun v => v)
      (ariba.set_gene_annotation_file P) (ariba.frame_gene_annotation_file P) pre post v _ st hpost hs
  · intro h; subst h; rw [ho]
    exact ariba.scan_last_write P (fun s => s.options.exon_annotation_file) 'e' (fun v => v)
      (ariba.set_exon_annotation_file P) (ariba.frame_exon_annotation_file P) pre post v _ st hpost hs
  · intro h; subst h; rw [ho]
    exact ariba.scan_last_write P (fun s => s.options.output_file) 'o' (fun v => v)
      (ariba.set_output_file P) (ariba.frame_output_file P) pre post v _ st hpost hs
  · intro h; subst h; rw [ho]
    exact ariba.scan_last_write P (fun s => s.options.discarded_output_file) 'O' (fun v => v)
      (ariba.set_discarded_output_file P) (ariba.frame_discarded_output_file P) pre post v _ st hpost hs
  · intro h; subst h; rw [ho]
    exact ariba.scan_last_write P (fun s => s.options.assembly_file) 'a' (fun v => v)
      (ariba.set_assembly_file P) (ariba.frame_assembly_file P) pre post v _ st hpost hs
  · intro h; subst h; rw [ho]
    exact ariba.scan_last_write P (fun s => s.options.blacklist_file) 'b' (fun v => v)
      (ariba.set_blacklist_file P) (ariba.frame_blacklist_file P) pre post v _ st hpost hs
  · intro h; subst h; rw [ho]
    exact ariba.scan_last_write P (fun s => s.options.known_fusions_file) 'k' (fun v => v)
      (ariba.set_known_fusions_file P) (ariba.frame_known_fusions_file P) pre post v _ st hpost hs
  · intro h; subst h; rw [ho]
    exact ariba.scan_last_write P (fun s => s.options.min_support) 's' (fun v => P.atoi v)
      (ariba.set_min_support P) (ariba.frame_min_support P) pre post v _ st hpost hs
  · intro h; subst h; rw [ho]
    exact ariba.scan_last_write P (fun s => s.options.homopolymer_length) 'H' (fun v => P.atoi v)
      (ariba.set_homopolymer_length P) (ariba.frame_homopolymer_length P) pre post v _ st hpost hs
  · intro h; subst h; rw [ho]
    exact ariba.scan_last_write P (fun s => s.options.min_read_through_distance) 'D' (fun v => P.atoi v)
      (ariba.set_min_read_through_distance P) (ariba.frame_min_read_through_distance P) pre post v _ st hpost hs
  · intro h; subst h; rw [ho]
    exact ariba.scan_last_write P (fun s => s.options.min_anchor_length) 'A' (fun v => P.atoi v)
      (ariba.set_min_anchor_length P) (ariba.frame_min_anchor_length P) pre post v _ st hpost hs
  · intro h; subst h; rw [ho]
    exact ariba.scan_last_write P (fun s => s.options.evalue_cutoff) 'E' (fun v => P.atof v)
      (ariba.set_evalue_cutoff P) (ariba.frame_evalue_cutoff P) pre post v _ st hpost hs
  · intro h; subst h; rw [ho]
    exact ariba.scan_last_write P (fun s => s.options.max_kmer_content) 'K' (fun v => P.atof v)
      (ariba.set_max_kmer_content P) (ariba.frame_max_kmer_content P) pre post v _ st hpost hs
  · intro h; subst h; rw [ho]
    exact ariba.scan_last_write P (fun s => s.options.max_mismapper_fraction) 'm' (fun v => P.atof v)
      (ariba.set_max_mismapper_fraction P) (ariba.frame_max_mismapper_fraction P) pre post v _ st hpost hs
  · intro h; subst h; rw [ho]
    exact ariba.scan_last_write P (fun s => s.options.low_tumor_content) 'l' (fun _ => true)
      (ariba.set_low_tumor_content P) (ariba.frame_low_tumor_content P) pre post v _ st hpost hs
  · intro h; subst h
    have hi : o.interesting_contigs = replace_commas v := by
      rw [ho]
      exact ariba.scan_last_write P (fun s => s.options.interesting_contigs) 'i'
        (fun v => replace_commas v) (ariba.set_interesting_contigs P)
        (ariba.frame_interesting_contigs P) pre post v _ st hpost hs
    rw [hi]
    exact ⟨rfl, replace_commas_length v, replace_commas_no_comma v,
      fun i hi => replace_commas_get v i hi⟩

/-- C11, at an input where `-s 7` and `-i 1,2,X` occur once each. -/
theorem C11_single_occurrence_sets_field_witness :
    ∃ o, (ariba.parse_arguments example_platform
        ["ariba", "-c", "chimeric.bam", "-x", "rna.bam", "-g", "genes.bed", "-e", "exons.bed",
         "-o", "fusions.out", "-a", "assembly.fa", "-b", "blacklist.tsv", "-s", "7",
         "-i", "1,2,X"]).result = Except.ok o
      ∧ o.min_support = 7 ∧ o.interesting_contigs = "1 2 X" :=
  ⟨_, rfl,
   (C11_single_occurrence_sets_field example_platform
      ["ariba", "-c", "chimeric.bam", "-x", "rna.bam", "-g", "genes.bed", "-e", "exons.bed",
       "-o", "fusions.out", "-a", "assembly.fa", "-b", "blacklist.tsv", "-s", "7",
       "-i", "1,2,X"] _ 's' "7" rfl (by decide) (by decide)).2.2.2.2.2.2.2.2.2.2.1 rfl,
   ((C11_single_occurrence_sets_field example_platform
      ["ariba", "-c", "chimeric.bam", "-x", "rna.bam", "-g", "genes.bed", "-e", "exons.bed",
       "-o", "fusions.out", "-a", "assembly.fa", "-b", "blacklist.tsv", "-s", "7",
       "-i", "1,2,X"] _ 'i' "1,2,X" rfl (by decide)
      (by decide)).2.2.2.2.2.2.2.2.2.2.2.2.2.2.2.2.2.2 rfl).1⟩

/-- C12: for a registry whose names are distinct, the `valid_filters` text that
`print_usage` builds is the list of the registered names in the order of the registry,
joined by `", "`, and the description of `-f` ends with it. `print_usage` computes it
from `get_default_options()` and has no access to the record that is being resolved,
so the text does not depend on the filters the user disabled. -/
theorem C12_valid_filters_text (P : Platform) (h : P.FILTERS.Nodup) :
    ariba.print_usage_valid_filters P = ", ".intercalate P.FILTERS
    ∧ ariba.print_usage_f_description P
        = "A comma-/space-separated list of filters to disable. By default "
          ++ "all filters are enabled. Valid values: " ++ ", ".intercalate P.FILTERS := by
  have h1 : ariba.print_usage_valid_filters P = ", ".intercalate P.FILTERS := by
    unfold ariba.print_usage_valid_filters
    rw [ariba.valid_filters_loop_eq, ariba.default_filters_keys P h]
  exact ⟨h1, by unfold ariba.print_usage_f_description; rw [h1]⟩

/-- C12, for the registry `mismappers`, `blacklist`, `min_support`. -/
theorem C12_valid_filters_text_witness :
    ariba.print_usage_valid_filters example_platform = "mismappers, blacklist, min_support" :=
  (C12_valid_filters_text example_platform (by decide)).1

/-- C13 (defect): with two occurrences of `-f`, the second one is not processed. On
`-f mismappers -f blacklist` the returned record has `blacklist` still enabled, and on
`-f mismappers -f bogus` a record is returned although `bogus` is not registered. The
stream `disabled_filters_ss` is declared outside the scanning loop; the first `-f` leaves
it with `failbit` set, `str()` does not clear the state, so the `while` loop of a later
`-f` is never entered. -/
theorem C13_second_f_ignored :
    (∃ o, (ariba.parse_arguments example_platform
        ["ariba", "-c", "chimeric.bam", "-x", "rna.bam", "-g", "genes.bed", "-e", "exons.bed",
         "-o", "fusions.out", "-b", "blacklist.tsv", "-f", "mismappers",
         "-f", "blacklist"]).result = Except.ok o
      ∧ o.filters.find "mismappers" = some false
      ∧ o.filters.find "blacklist" = some true)
    ∧ (∃ o, (ariba.parse_arguments example_platform
        ["ariba", "-c", "chimeric.bam", "-x", "rna.bam", "-g", "genes.bed", "-e", "exons.bed",
         "-o", "fusions.out", "-b", "blacklist.tsv", "-f", "mismappers",
         "-f", "bogus"]).result = Except.ok o)
    ∧ first_unknown (ariba.get_default_options example_platform).filters (tokens "bogus")
        = some "bogus" :=
  ⟨⟨_, rfl, by decide, by decide⟩, ⟨_, rfl⟩, by decide⟩
